import Mathlib

/-!
# Verification of the multi-source location correction engine

Shallow embedding of the C++ sources under `src/location_correction/` and
proofs about the spec's claims.  Conventions:

* C++ `double` values are modelled as exact rationals (`ℚ`); `long long`,
  `int` as `ℤ`; `size_t` counts as `ℕ`.
* Transcendental kernels (`std::sin`, `std::cos`, `std::sqrt`,
  `std::atan2`, `M_PI`) and the decimal formatting of doubles
  (`doubleToString`) are not rational functions; they are collected in a
  `RealOps` parameter that every embedded function threads through
  unchanged, mirroring the call sites of the C++ code exactly.
* `std::map<std::string, std::string>` (the `extras` attribute map) is
  modelled as a key-sorted association list, which is the canonical form a
  `std::map` iterates in.
* `std::shared_ptr<T>` return values are modelled as `Option T` (`none` =
  null pointer).
* Fallible parsing (functions that throw) returns `Option`.

The repository's headers and translation units disagree in places (e.g.
`DataFusion.cpp` uses a `LocationStatus::NORMAL` enumerator and
`DataSourceType::FUSED`/`BLE`/`INERTIAL`/`UNKNOWN` values that
`LocationModel.h` does not declare).  The embedding takes the union of the
enumerators actually used, keeping the header's declaration order for the
numeric casts used by `FileStorage`.
-/

/-- The `DataSourceType` from `LocationModel.h` (constructors 0–4), extended by
the enumerators used in `DataFusion.cpp` / `LocationModel.cpp`. -/
inductive DataSourceType where
  | GNSS
  | WIFI
  | BASE_STATION
  | SENSOR
  | OTHER
  | BLE
  | INERTIAL
  | FUSED
  | UNKNOWN
deriving DecidableEq, Repr, Inhabited

/-- The `static_cast<int>` on `DataSourceType`, following the declaration order
of `LocationModel.h` for the declared constructors. -/
def DataSourceType.toInt : DataSourceType → Int
  | .GNSS => 0
  | .WIFI => 1
  | .BASE_STATION => 2
  | .SENSOR => 3
  | .OTHER => 4
  | .BLE => 5
  | .INERTIAL => 6
  | .FUSED => 7
  | .UNKNOWN => 8

/-- The `static_cast<DataSourceType>` on an `int` (inverse of
`DataSourceType.toInt`; out-of-range values are clamped to `UNKNOWN`). -/
def DataSourceType.ofInt : Int → DataSourceType
  | 0 => .GNSS
  | 1 => .WIFI
  | 2 => .BASE_STATION
  | 3 => .SENSOR
  | 4 => .OTHER
  | 5 => .BLE
  | 6 => .INERTIAL
  | 7 => .FUSED
  | _ => .UNKNOWN

/-- The `LocationStatus` from `LocationModel.h` (constructors 0–3) plus the
`NORMAL` enumerator that `DataFusion.cpp` assigns to fused results. -/
inductive LocationStatus where
  | VALID
  | INVALID
  | LOW_ACCURACY
  | ANOMALY
  | NORMAL
deriving DecidableEq, Repr, Inhabited

/-- The `static_cast<int>` on `LocationStatus`. -/
def LocationStatus.toInt : LocationStatus → Int
  | .VALID => 0
  | .INVALID => 1
  | .LOW_ACCURACY => 2
  | .ANOMALY => 3
  | .NORMAL => 4

/-- The `static_cast<LocationStatus>` on an `int` (inverse of
`LocationStatus.toInt`; out-of-range values are clamped to `INVALID`). -/
def LocationStatus.ofInt : Int → LocationStatus
  | 0 => .VALID
  | 2 => .LOW_ACCURACY
  | 3 => .ANOMALY
  | 4 => .NORMAL
  | _ => .INVALID

/-- The `extras` attribute map: `std::map<std::string, std::string>`
modelled as a key-sorted association list. -/
abbrev ExtrasMap := List (String × String)

/-- The `LocationInfo::setExtra` / `extras[key] = value`: ordered-map insert,
replacing the value of an existing key (`std::map` keeps keys strictly
increasing). -/
def setExtra (m : ExtrasMap) (key value : String) : ExtrasMap :=
  match m with
  | [] => [(key, value)]
  | (k, v) :: rest =>
    if key < k then (key, value) :: (k, v) :: rest
    else if key = k then (key, value) :: rest
    else (k, v) :: setExtra rest key value

/-- The `LocationInfo::getExtra`: lookup with a default value. -/
def getExtra (m : ExtrasMap) (key defaultValue : String) : String :=
  match m with
  | [] => defaultValue
  | (k, v) :: rest => if k = key then v else getExtra rest key defaultValue

/-- The `LocationInfo` from `LocationModel.h`/`LocationModel.cpp`.
(`LocationModel.cpp` calls the source field `dataSource`; every other
translation unit calls it `sourceType` — the embedding uses `sourceType`.) -/
structure LocationInfo where
  latitude : ℚ
  longitude : ℚ
  altitude : ℚ
  accuracy : ℚ
  speed : ℚ
  direction : ℚ
  timestamp : ℤ
  sourceType : DataSourceType
  status : LocationStatus
  satelliteCount : ℤ
  signalStrength : ℤ
  locationType : String
  provider : String
  extras : ExtrasMap
deriving DecidableEq, Repr

/-- The `LocationInfo` default constructor. -/
def LocationInfo.default : LocationInfo :=
  { latitude := 0, longitude := 0, altitude := 0, accuracy := 0,
    speed := 0, direction := 0, timestamp := 0,
    sourceType := .UNKNOWN, status := .INVALID,
    satelliteCount := 0, signalStrength := 0,
    locationType := "", provider := "", extras := [] }

instance : Inhabited LocationInfo := ⟨LocationInfo.default⟩

/-- The `LocationInfo::isValid` (`LocationModel.cpp`, lines 82–88). -/
def LocationInfo.isValid (l : LocationInfo) : Bool :=
  l.status = LocationStatus.VALID &&
  decide (-90 ≤ l.latitude) && decide (l.latitude ≤ 90) &&
  decide (-180 ≤ l.longitude) && decide (l.longitude ≤ 180) &&
  decide (0 ≤ l.accuracy) &&
  decide (0 < l.timestamp)

/-- The transcendental kernel and formatting primitives the C++ code takes
from `<cmath>`/`<sstream>`: these are not rational functions, so the
embedding abstracts them and threads them through every call site. -/
structure RealOps where
  sin : ℚ → ℚ
  cos : ℚ → ℚ
  sqrt : ℚ → ℚ
  atan2 : ℚ → ℚ → ℚ
  pi : ℚ
  /-- The `doubleToString(value, precision)` from `Utils.cpp` (fixed-point
  decimal formatting of a double). -/
  d2s : ℚ → Nat → String

/-- The `calculateDistance` (`Utils.cpp`, lines 13–35): haversine distance in
metres. -/
def calculateDistance (ops : RealOps) (lat1 lon1 lat2 lon2 : ℚ) : ℚ :=
  let R : ℚ := 6371000
  let radLat1 := lat1 * ops.pi / 180
  let radLon1 := lon1 * ops.pi / 180
  let radLat2 := lat2 * ops.pi / 180
  let radLon2 := lon2 * ops.pi / 180
  let dLat := radLat2 - radLat1
  let dLon := radLon2 - radLon1
  let a := ops.sin (dLat / 2) * ops.sin (dLat / 2) +
    ops.cos radLat1 * ops.cos radLat2 * ops.sin (dLon / 2) * ops.sin (dLon / 2)
  let c := 2 * ops.atan2 (ops.sqrt a) (ops.sqrt (1 - a))
  R * c

/-- The `calculateAverage` (`Utils.cpp`, lines 378–389). -/
def calculateAverage (values : List ℚ) : ℚ :=
  if values = [] then 0 else values.sum / values.length

/-- The `calculateStandardDeviation` (`Utils.cpp`, lines 392–406): sample
standard deviation (divides by `n - 1`). -/
def calculateStandardDeviation (ops : RealOps) (values : List ℚ) : ℚ :=
  if values.length < 2 then 0
  else
    let avg := calculateAverage values
    let sumSquaredDiff := (values.map (fun v => (v - avg) * (v - avg))).sum
    ops.sqrt (sumSquaredDiff / (values.length - 1))

/-- The `transformLat` (`Utils.cpp`, lines 143–149). -/
def transformLat (ops : RealOps) (x y : ℚ) : ℚ :=
  let ret := -100 + 2 * x + 3 * y + (2/10) * y * y + (1/10) * x * y +
    (2/10) * ops.sqrt |x|
  let ret := ret + (20 * ops.sin (6 * x * ops.pi) + 20 * ops.sin (2 * x * ops.pi)) * 2 / 3
  let ret := ret + (20 * ops.sin (y * ops.pi) + 40 * ops.sin (y / 3 * ops.pi)) * 2 / 3
  let ret := ret + (160 * ops.sin (y / 12 * ops.pi) + 320 * ops.sin (y * ops.pi / 30)) * 2 / 3
  ret

/-- The `transformLon` (`Utils.cpp`, lines 152–158). -/
def transformLon (ops : RealOps) (x y : ℚ) : ℚ :=
  let ret := 300 + x + 2 * y + (1/10) * x * x + (1/10) * x * y +
    (1/10) * ops.sqrt |x|
  let ret := ret + (20 * ops.sin (6 * x * ops.pi) + 20 * ops.sin (2 * x * ops.pi)) * 2 / 3
  let ret := ret + (20 * ops.sin (x * ops.pi) + 40 * ops.sin (x / 3 * ops.pi)) * 2 / 3
  let ret := ret + (150 * ops.sin (x / 12 * ops.pi) + 300 * ops.sin (x / 30 * ops.pi)) * 2 / 3
  ret

/-- The `isInsideChina` (`Utils.cpp`, lines 161–164). -/
def isInsideChina (lat lon : ℚ) : Bool :=
  decide (8293/10000 ≤ lat) && decide (lat ≤ 558271/10000) &&
  decide (734976/10000 ≤ lon) && decide (lon ≤ 1350841/10000)

/-- The eccentricity-squared constant `ee` used by the GCJ02 conversion. -/
def gcjEE : ℚ := 669342162296594323 / 100000000000000000000

/-- The semi-major axis constant `a` used by the GCJ02 conversion. -/
def gcjA : ℚ := 6378245

/-- The `wgs84ToGcj02` (`Utils.cpp`, lines 73–105): returns the input unchanged
outside China, otherwise adds the (kernel-dependent) offset. -/
def wgs84ToGcj02 (ops : RealOps) (wgs84 : LocationInfo) : LocationInfo :=
  let lat := wgs84.latitude
  let lon := wgs84.longitude
  if ¬ isInsideChina lat lon then wgs84
  else
    let dLat := transformLat ops (lon - 105) (lat - 35)
    let dLon := transformLon ops (lon - 105) (lat - 35)
    let radLat := lat / 180 * ops.pi
    let magic := ops.sin radLat
    let magic := 1 - gcjEE * magic * magic
    let sqrtMagic := ops.sqrt magic
    let dLat := dLat * 180 / (gcjA * (1 - gcjEE) / (magic * sqrtMagic) * ops.pi)
    let dLon := dLon * 180 / (gcjA / sqrtMagic * ops.cos radLat * ops.pi)
    { wgs84 with latitude := lat + dLat, longitude := lon + dLon }

/-! ## Data processors (`DataProcessor.cpp`) -/

/-- Result of an overridden `doProcess`: either an exception (`.error`) or
a success flag together with the (possibly mutated) copy of the location.
`BaseDataProcessor::process` works on a copy, so on failure or exception
the original input is returned untouched. -/
abbrev DoProcessResult := Except Unit (Bool × LocationInfo)

/-- The `BaseDataProcessor::process` (`DataProcessor.cpp`, lines 60–84),
parametric in the subclass's `doProcess` body.  The C++ function returns a
`std::shared_ptr`, modelled as `Option` (every path returns a fresh
non-null pointer). -/
def BaseDataProcessor.process (enabled : Bool)
    (doProcess : LocationInfo → DoProcessResult)
    (location : LocationInfo) : Option LocationInfo :=
  if ¬ enabled then some location
  else
    match doProcess location with
    | .error _ => some location
    | .ok (success, processedLocation) =>
      if ¬ success then some location
      else some processedLocation

/-- The `AccuracyFilterProcessor` configuration (`DataProcessor.cpp`,
lines 104–134). -/
structure AccuracyFilterProcessor where
  enabled : Bool := true
  minAccuracy : ℚ := 0
  maxAccuracy : ℚ := 100

/-- The `AccuracyFilterProcessor::doProcess`: marks `LOW_ACCURACY` when the
accuracy is out of range; never suppresses the fix. -/
def AccuracyFilterProcessor.doProcess (p : AccuracyFilterProcessor)
    (location : LocationInfo) : LocationInfo :=
  if location.accuracy < p.minAccuracy ∨ location.accuracy > p.maxAccuracy then
    { location with status := .LOW_ACCURACY }
  else location

/-- The `TimeFilterProcessor` configuration (`DataProcessor.cpp`,
lines 136–169). -/
structure TimeFilterProcessor where
  enabled : Bool := true
  maxTimeDiff : ℤ := 300000

/-- The `TimeFilterProcessor::doProcess` with the wall clock passed explicitly
(the C++ reads `getCurrentTimestampMs()`). -/
def TimeFilterProcessor.doProcess (p : TimeFilterProcessor) (now : ℤ)
    (location : LocationInfo) : LocationInfo :=
  if now - location.timestamp > p.maxTimeDiff then
    { location with status := .INVALID }
  else location

/-- The `OutlierDetectionProcessor` state (`DataProcessor.cpp`,
lines 171–277). -/
structure OutlierDetectionProcessor where
  enabled : Bool := true
  thresholdFactor : ℚ := 2
  maxHistorySize : Nat := 50
  minSampleSize : Nat := 5
  history : List LocationInfo := []

/-- The `OutlierDetectionProcessor::trimHistory`: pop the front while the
history exceeds the capacity. -/
def trimHistory (maxHistorySize : Nat) : List LocationInfo → List LocationInfo
  | [] => []
  | x :: xs =>
    if xs.length + 1 > maxHistorySize then trimHistory maxHistorySize xs
    else x :: xs

/-- The `OutlierDetectionProcessor::calculateStatistics` (`DataProcessor.cpp`,
lines 242–266): centroid of the history and the standard deviation of the
haversine distances from it, clamped below by 1 metre. -/
def OutlierDetectionProcessor.calculateStatistics (ops : RealOps)
    (history : List LocationInfo) : ℚ × ℚ × ℚ :=
  let avgLat := (history.map (·.latitude)).sum / history.length
  let avgLon := (history.map (·.longitude)).sum / history.length
  let distances := history.map fun loc =>
    calculateDistance ops loc.latitude loc.longitude avgLat avgLon
  let stdDev := calculateStandardDeviation ops distances
  let stdDev := if stdDev < 1/10000 then 1 else stdDev
  (avgLat, avgLon, stdDev)

/-- The `OutlierDetectionProcessor::doProcess` (`DataProcessor.cpp`,
lines 201–239), returning the updated state and the (possibly annotated)
fix. -/
def OutlierDetectionProcessor.doProcess (ops : RealOps)
    (p : OutlierDetectionProcessor) (location : LocationInfo) :
    OutlierDetectionProcessor × LocationInfo :=
  if ¬ location.isValid then (p, location)
  else if p.history.length < p.minSampleSize then
    ({ p with history := p.history ++ [location] }, location)
  else
    let stats := calculateStatistics ops p.history
    let distance := calculateDistance ops location.latitude location.longitude stats.1 stats.2.1
    if distance > p.thresholdFactor * stats.2.2 then
      (p, { location with
        status := .ANOMALY
        extras := setExtra (setExtra (setExtra location.extras
          "isOutlier" "true")
          "outlierDistance" (ops.d2s distance 2))
          "threshold" (ops.d2s (p.thresholdFactor * stats.2.2) 2) })
    else
      ({ p with history := trimHistory p.maxHistorySize (p.history ++ [location]) },
       location)

/-- Coordinate systems used by `CoordinateConverterProcessor`
(`DataProcessor.cpp` lines 279–328; the enum itself is declared in a header
missing from the sources — modelled from the two values the code uses). -/
inductive CoordinateSystem where
  | WGS84
  | GCJ02
deriving DecidableEq, Repr

/-- The `CoordinateConverterProcessor` configuration. -/
structure CoordinateConverterProcessor where
  enabled : Bool := true
  sourceSystem : CoordinateSystem := .WGS84
  targetSystem : CoordinateSystem := .GCJ02

/-- The `gcj02ToWgs84` (`Utils.cpp`, lines 108–140). -/
def gcj02ToWgs84 (ops : RealOps) (gcj02 : LocationInfo) : LocationInfo :=
  let lat := gcj02.latitude
  let lon := gcj02.longitude
  if ¬ isInsideChina lat lon then gcj02
  else
    let dLat := transformLat ops (lon - 105) (lat - 35)
    let dLon := transformLon ops (lon - 105) (lat - 35)
    let radLat := lat / 180 * ops.pi
    let magic := ops.sin radLat
    let magic := 1 - gcjEE * magic * magic
    let sqrtMagic := ops.sqrt magic
    let dLat := dLat * 180 / (gcjA * (1 - gcjEE) / (magic * sqrtMagic) * ops.pi)
    let dLon := dLon * 180 / (gcjA / sqrtMagic * ops.cos radLat * ops.pi)
    { gcj02 with latitude := lat - dLat, longitude := lon - dLon }

/-- The `CoordinateConverterProcessor::doProcess` (`DataProcessor.cpp`,
lines 293–323).  Note: the converted coordinates are written back and the
`"coordinateSystem"` extra is set, but the code never checks that extra
before converting. -/
def CoordinateConverterProcessor.doProcess (ops : RealOps)
    (p : CoordinateConverterProcessor) (location : LocationInfo) : LocationInfo :=
  if p.sourceSystem = p.targetSystem then location
  else if p.sourceSystem = .WGS84 ∧ p.targetSystem = .GCJ02 then
    let gcj02 := wgs84ToGcj02 ops location
    { location with
      latitude := gcj02.latitude
      longitude := gcj02.longitude
      extras := setExtra location.extras "coordinateSystem" "GCJ02" }
  else if p.sourceSystem = .GCJ02 ∧ p.targetSystem = .WGS84 then
    let wgs84 := gcj02ToWgs84 ops location
    { location with
      latitude := wgs84.latitude
      longitude := wgs84.longitude
      extras := setExtra location.extras "coordinateSystem" "WGS84" }
  else location

/-- The concrete processor chain of the spec (§4.2): accuracy filter,
staleness filter, statistical outlier detector, coordinate transform, in
ascending priority order (`ProcessorChain`, `DataProcessor.cpp`,
lines 330–436). -/
structure ProcessorChain where
  accuracyFilter : AccuracyFilterProcessor := {}
  timeFilter : TimeFilterProcessor := {}
  outlierDetector : OutlierDetectionProcessor := {}
  coordinateConverter : CoordinateConverterProcessor := {}
  /-- the chain's `"stopOnInvalid"` parameter (defaults to `"false"`). -/
  stopOnInvalid : Bool := false

/-- The `ProcessorChain::process` (`DataProcessor.cpp`, lines 378–405): apply
each enabled stage in order; optionally stop early once the fix becomes
invalid.  Each stage goes through `BaseDataProcessor::process`, which for
these four stages never fails, so the stage result is always adopted. -/
def ProcessorChain.process (ops : RealOps) (now : ℤ) (chain : ProcessorChain)
    (location : LocationInfo) : ProcessorChain × LocationInfo :=
  -- stage 1: accuracy filter
  let l1 := if chain.accuracyFilter.enabled
    then chain.accuracyFilter.doProcess location else location
  if chain.accuracyFilter.enabled ∧ ¬ l1.isValid ∧ chain.stopOnInvalid then
    (chain, l1)
  else
    -- stage 2: staleness (time) filter
    let l2 := if chain.timeFilter.enabled
      then chain.timeFilter.doProcess now l1 else l1
    if chain.timeFilter.enabled ∧ ¬ l2.isValid ∧ chain.stopOnInvalid then
      (chain, l2)
    else
      -- stage 3: statistical outlier detector (stateful)
      let (od, l3) := if chain.outlierDetector.enabled
        then chain.outlierDetector.doProcess ops l2
        else (chain.outlierDetector, l2)
      let chain := { chain with outlierDetector := od }
      if chain.outlierDetector.enabled ∧ ¬ l3.isValid ∧ chain.stopOnInvalid then
        (chain, l3)
      else
        -- stage 4: coordinate transform
        let l4 := if chain.coordinateConverter.enabled
          then chain.coordinateConverter.doProcess ops l3 else l3
        (chain, l4)

/-! ## Data fusion (`DataFusion.cpp`) -/

/-- The `FusionStrategy` (`ConfigModel.h`, lines 11–15). -/
inductive FusionStrategy where
  | PRIORITY_BASED
  | WEIGHTED_AVERAGE
  | ADAPTIVE
deriving DecidableEq, Repr

/-- The `WeightStrategy` used by `WeightedAverageFusion` (`DataFusion.cpp`; the
enum declaration itself is in a header missing from the sources — modelled
from the three cases the code switches on). -/
inductive WeightStrategy where
  | EQUAL_WEIGHT
  | ACCURACY_BASED
  | CUSTOM
deriving DecidableEq, Repr

/-- The `intToString` — used by `DataFusion.cpp` but not defined under `src/`.
Modelled from the spec: plain decimal rendering of an `int`. -/
def intToString (i : ℤ) : String := toString i

/-- The `sizeToString` — used by `DataFusion.cpp` but not defined under `src/`.
Modelled from the spec: plain decimal rendering of a `size_t`. -/
def sizeToString (n : ℕ) : String := toString n

/-- The `dataSourceTypeToString` — used by `DataFusion.cpp` but not defined
under `src/`.  Modelled from the spec: the enumerator's name. -/
def dataSourceTypeToString : DataSourceType → String
  | .GNSS => "GNSS"
  | .WIFI => "WIFI"
  | .BASE_STATION => "BASE_STATION"
  | .SENSOR => "SENSOR"
  | .OTHER => "OTHER"
  | .BLE => "BLE"
  | .INERTIAL => "INERTIAL"
  | .FUSED => "FUSED"
  | .UNKNOWN => "UNKNOWN"

/-- The `fusionStrategyToString` — used by `DataFusion.cpp` but not defined
under `src/`.  Modelled from the spec: the enumerator's name. -/
def fusionStrategyToString : FusionStrategy → String
  | .PRIORITY_BASED => "PRIORITY_BASED"
  | .WEIGHTED_AVERAGE => "WEIGHTED_AVERAGE"
  | .ADAPTIVE => "ADAPTIVE"

/-- The `weightStrategyToString` — used by `DataFusion.cpp` but not defined
under `src/`.  Modelled from the spec: the enumerator's name. -/
def weightStrategyToString : WeightStrategy → String
  | .EQUAL_WEIGHT => "EQUAL_WEIGHT"
  | .ACCURACY_BASED => "ACCURACY_BASED"
  | .CUSTOM => "CUSTOM"

/-- The `DataFusion` base-class configuration (`DataFusion.cpp`,
lines 13–52). -/
structure DataFusion where
  enabled : Bool := true
  minRequiredSources : ℕ := 2
  fusionStrategy : FusionStrategy := .WEIGHTED_AVERAGE

/-- The `WeightedAverageFusion` state (`DataFusion.cpp`, lines 177–208):
weight strategy and the custom per-source weight map.
`setCustomWeight` stores `max(0, weight)` and the map lookup defaults to
`1.0`, so in every reachable state the weight function is nonnegative. -/
structure WeightedAverageFusion where
  base : DataFusion := {}
  weightStrategy : WeightStrategy := .ACCURACY_BASED
  customWeights : DataSourceType → ℚ := fun _ => 1

/-- The `WeightedAverageFusion::calculateWeights` (`DataFusion.cpp`,
lines 211–272). -/
def WeightedAverageFusion.calculateWeights (f : WeightedAverageFusion)
    (locations : List LocationInfo) : List ℚ :=
  match f.weightStrategy with
  | .EQUAL_WEIGHT =>
    locations.map fun _ => 1 / locations.length
  | .ACCURACY_BASED =>
    let totalAccuracyInverse :=
      (locations.map fun location =>
        if location.accuracy > 0 then 1 / location.accuracy else 1).sum
    locations.map fun location =>
      if totalAccuracyInverse > 0 then
        if location.accuracy > 0 then (1 / location.accuracy) / totalAccuracyInverse
        else 1 / totalAccuracyInverse
      else 1 / locations.length
  | .CUSTOM =>
    let totalCustomWeight :=
      (locations.map fun location => f.customWeights location.sourceType).sum
    locations.map fun location =>
      if totalCustomWeight > 0 then
        f.customWeights location.sourceType / totalCustomWeight
      else 1 / locations.length

/-- The `"weights"` extra string built by `WeightedAverageFusion::doFuse`
(lines 318–329). -/
def weightInfoString (ops : RealOps) (locations : List LocationInfo)
    (weights : List ℚ) : String :=
  let body := String.intercalate ", "
    ((List.zip locations weights).map fun p =>
      dataSourceTypeToString p.1.sourceType ++ ":" ++ ops.d2s p.2 3)
  "[" ++ body ++ "]"

/-- The `WeightedAverageFusion::doFuse` (`DataFusion.cpp`, lines 275–334).
The C++ stamps the result with `getCurrentTimestampMs()`, passed here as
`now`. -/
def WeightedAverageFusion.doFuse (ops : RealOps) (now : ℤ)
    (f : WeightedAverageFusion) (locations : List LocationInfo) : LocationInfo :=
  let weights := f.calculateWeights locations
  let weightedLat := (List.zipWith (fun l w => l.latitude * w) locations weights).sum
  let weightedLon := (List.zipWith (fun l w => l.longitude * w) locations weights).sum
  let weightedAlt := (List.zipWith (fun l w => l.altitude * w) locations weights).sum
  let weightedAccuracy := (List.zipWith
    (fun l w => if l.accuracy > 0 then w / l.accuracy else 0) locations weights).sum
  let accuracy :=
    if weightedAccuracy > 0 then 1 / weightedAccuracy
    else (locations.map (·.accuracy)).sum / locations.length
  { LocationInfo.default with
    timestamp := now
    latitude := weightedLat
    longitude := weightedLon
    altitude := weightedAlt
    accuracy := accuracy
    extras := setExtra (setExtra (setExtra []
      "fusionType" "WEIGHTED_AVERAGE")
      "weightStrategy" (weightStrategyToString f.weightStrategy))
      "weights" (weightInfoString ops locations weights) }

/-- The `PriorityBasedFusion` state (`DataFusion.cpp`, lines 112–136): the
source-priority map with the constructor's defaults. -/
structure PriorityBasedFusion where
  base : DataFusion := {}
  sourcePriorities : DataSourceType → ℤ := fun t =>
    match t with
    | .GNSS => 100
    | .WIFI => 80
    | .BASE_STATION => 60
    | .BLE => 40
    | .INERTIAL => 20
    | _ => 0

/-- The comparator passed to `std::sort` by `PriorityBasedFusion::doFuse`
(lines 143–155): `a` precedes `b` when its source priority is higher, with
smaller accuracy as the tie-break. -/
def priorityCompLess (pri : DataSourceType → ℤ) (a b : LocationInfo) : Bool :=
  if pri a.sourceType ≠ pri b.sourceType then
    decide (pri a.sourceType > pri b.sourceType)
  else decide (a.accuracy < b.accuracy)

/-- Insert `x` into a list already sorted by `priorityCompLess`, keeping the
sort order (`std::sort`'s result is some order consistent with the strict
weak order; the embedding uses a stable insertion sort). -/
def insertByPriority (pri : DataSourceType → ℤ) (x : LocationInfo) :
    List LocationInfo → List LocationInfo
  | [] => [x]
  | y :: ys =>
    if priorityCompLess pri y x then y :: insertByPriority pri x ys
    else x :: y :: ys

/-- The `std::sort` call of `PriorityBasedFusion::doFuse`, as an insertion
sort over the comparator. -/
def sortByPriority (pri : DataSourceType → ℤ) :
    List LocationInfo → List LocationInfo
  | [] => []
  | x :: xs => insertByPriority pri x (sortByPriority pri xs)

/-- The `PriorityBasedFusion::doFuse` (`DataFusion.cpp`, lines 139–170): pick
the sorted front (highest priority, then best accuracy) and annotate it.
Returns `none` on an empty input (`sortedLocations[0]` would be undefined);
the `fuse` wrapper guarantees non-emptiness. -/
def PriorityBasedFusion.doFuse (f : PriorityBasedFusion)
    (locations : List LocationInfo) : Option LocationInfo :=
  match sortByPriority f.sourcePriorities locations with
  | [] => none
  | best :: _ =>
    some { best with
      extras := setExtra (setExtra (setExtra best.extras
        "fusionType" "PRIORITY_BASED")
        "selectedSourceType" (dataSourceTypeToString best.sourceType))
        "selectedSourcePriority" (intToString (f.sourcePriorities best.sourceType)) }

/-- The `DataFusion::fuse` (`DataFusion.cpp`, lines 55–105), parametric in the
subclass's `doFuse`: validity filtering, minimum-source checks, and the
post-processing of the fused result (status `NORMAL`, source `FUSED`,
strategy metadata). -/
def DataFusion.fuse (base : DataFusion)
    (doFuse : List LocationInfo → Option LocationInfo)
    (locations : List LocationInfo) : Option LocationInfo :=
  if ¬ base.enabled then none
  else if locations.length < base.minRequiredSources then none
  else
    let validLocations := locations.filter fun location =>
      location.isValid && location.status ≠ LocationStatus.ANOMALY
    if validLocations.length < base.minRequiredSources then none
    else
      match doFuse validLocations with
      | none => none
      | some fusedLocation =>
        some { fusedLocation with
          status := .NORMAL
          sourceType := .FUSED
          extras := setExtra (setExtra fusedLocation.extras
            "fusionStrategy" (fusionStrategyToString base.fusionStrategy))
            "sourceCount" (sizeToString validLocations.length) }

/-! ## Anomaly detectors (`AnomalyDetector.cpp`) -/

/-- The `longLongToString` — used by `AnomalyDetector.cpp` but not defined under
`src/`.  Modelled from the spec: plain decimal rendering. -/
def longLongToString (i : ℤ) : String := toString i

/-- The `AnomalyResult` (`AnomalyDetector.h`): verdict, confidence and an info
map. -/
structure AnomalyResult where
  isAnomaly : Bool := false
  confidence : ℚ := 0
  anomalyInfo : ExtrasMap := []
deriving DecidableEq, Repr

instance : Inhabited AnomalyResult := ⟨{}⟩

/-- The `TimeDifferenceAnomalyDetector` (`AnomalyDetector.cpp`,
lines 105–153). -/
structure TimeDifferenceAnomalyDetector where
  enabled : Bool := true
  minSampleSize : ℕ := 5
  maxTimeDiff : ℤ := 60000

/-- The `TimeDifferenceAnomalyDetector::doDetectAnomaly` (lines 124–148) with
the wall clock passed explicitly. -/
def TimeDifferenceAnomalyDetector.doDetectAnomaly
    (d : TimeDifferenceAnomalyDetector) (now : ℤ) (location : LocationInfo) :
    AnomalyResult :=
  let timeDiff := now - location.timestamp
  if timeDiff > d.maxTimeDiff then
    let normalizedDiff : ℚ := (timeDiff : ℚ) / (d.maxTimeDiff : ℚ)
    { isAnomaly := true
      confidence := min 1 normalizedDiff
      anomalyInfo := setExtra (setExtra (setExtra []
        "type" "TIME_DIFFERENCE")
        "timeDiff" (longLongToString timeDiff))
        "maxAllowed" (longLongToString d.maxTimeDiff) }
  else {}

/-- The `AnomalyDetector::detectAnomaly` (lines 54–80) specialised to the
time-difference detector: short-circuits when disabled or when the context
is smaller than `minSampleSize`. -/
def TimeDifferenceAnomalyDetector.detectAnomaly
    (d : TimeDifferenceAnomalyDetector) (now : ℤ) (location : LocationInfo)
    (context : List LocationInfo) : AnomalyResult :=
  if ¬ d.enabled ∨ context.length < d.minSampleSize then {}
  else d.doDetectAnomaly now location

/-- The `DistanceDeviationAnomalyDetector` (`AnomalyDetector.cpp`,
lines 155–183). -/
structure DistanceDeviationAnomalyDetector where
  enabled : Bool := true
  minSampleSize : ℕ := 5
  maxSpeed : ℚ := 30
  windowSize : ℕ := 10

/-- The scan of `DistanceDeviationAnomalyDetector::doDetectAnomaly` that
finds the context fix with the smallest strictly-positive time difference
(strict `<`, so the earliest such fix in iteration order wins ties). -/
def findPreviousLocation (location : LocationInfo) :
    List LocationInfo → Option (LocationInfo × ℤ)
  | [] => none
  | ctxLoc :: rest =>
    let best := findPreviousLocation location rest
    if ctxLoc.timestamp < location.timestamp then
      let timeDiff := location.timestamp - ctxLoc.timestamp
      match best with
      | none => some (ctxLoc, timeDiff)
      | some (_, bestDiff) =>
        if timeDiff < bestDiff then some (ctxLoc, timeDiff) else best
    else best

/-- The `DistanceDeviationAnomalyDetector::doDetectAnomaly` (lines 186–244). -/
def DistanceDeviationAnomalyDetector.doDetectAnomaly (ops : RealOps)
    (d : DistanceDeviationAnomalyDetector) (location : LocationInfo)
    (context : List LocationInfo) : AnomalyResult :=
  if context.length < d.minSampleSize then {}
  else
    match findPreviousLocation location context with
    | none => {}
    | some (previousLocation, minTimeDiff) =>
      if minTimeDiff > 0 then
        let distance := calculateDistance ops
          previousLocation.latitude previousLocation.longitude
          location.latitude location.longitude
        let speed := distance / ((minTimeDiff : ℚ) / 1000)
        if speed > d.maxSpeed then
          let speedRatio := speed / d.maxSpeed
          { isAnomaly := true
            confidence := min 1 (speedRatio - 1)
            anomalyInfo := setExtra (setExtra (setExtra (setExtra (setExtra []
              "type" "SPEED_EXCEEDANCE")
              "calculatedSpeed" (ops.d2s speed 2))
              "maxAllowedSpeed" (ops.d2s d.maxSpeed 2))
              "distance" (ops.d2s distance 2))
              "timeDiff" (longLongToString minTimeDiff) }
        else {}
      else {}

/-- The `AnomalyDetector::detectAnomaly` specialised to the distance-deviation
detector. -/
def DistanceDeviationAnomalyDetector.detectAnomaly (ops : RealOps)
    (d : DistanceDeviationAnomalyDetector) (location : LocationInfo)
    (context : List LocationInfo) : AnomalyResult :=
  if ¬ d.enabled ∨ context.length < d.minSampleSize then {}
  else d.doDetectAnomaly ops location context

/-- The `calculateMean` — called by `StatisticalAnomalyDetector` but not defined
under `src/`.  Modelled from the spec: the window mean. -/
def calculateMean (values : List ℚ) : ℚ :=
  if values = [] then 0 else values.sum / values.length

/-- The two-argument `calculateStandardDeviation(values, mean)` — called by
`StatisticalAnomalyDetector` but not defined under `src/`.  Modelled from
the spec: the standard deviation of the window around the given mean. -/
def calculateStdDevAround (ops : RealOps) (values : List ℚ) (mean : ℚ) : ℚ :=
  if values = [] then 0
  else ops.sqrt ((values.map (fun v => (v - mean) * (v - mean))).sum / values.length)

/-- The `StatisticalAnomalyDetector` state (`AnomalyDetector.cpp`,
lines 251–302). -/
structure StatisticalAnomalyDetector where
  enabled : Bool := true
  minSampleSize : ℕ := 5
  zScoreThreshold : ℚ := 2
  historySize : ℕ := 50
  history : List LocationInfo := []

/-- The `StatisticalAnomalyDetector::trimHistory`. -/
def statTrimHistory (historySize : ℕ) : List LocationInfo → List LocationInfo
  | [] => []
  | x :: xs =>
    if xs.length + 1 > historySize then statTrimHistory historySize xs
    else x :: xs

/-- The `StatisticalAnomalyDetector::addLocationToHistory` (lines 292–296):
pushes unconditionally, then trims. -/
def StatisticalAnomalyDetector.addLocationToHistory
    (d : StatisticalAnomalyDetector) (location : LocationInfo) :
    StatisticalAnomalyDetector :=
  { d with history := statTrimHistory d.historySize (d.history ++ [location]) }

/-- The `StatisticalAnomalyDetector::doDetectAnomaly` (lines 305–387): z-scores
of latitude, longitude and accuracy against the combined context+history
window; non-anomalous fixes (and fixes seen while the window is too small)
are pushed into the history regardless of their status tag. -/
def StatisticalAnomalyDetector.doDetectAnomaly (ops : RealOps)
    (d : StatisticalAnomalyDetector) (location : LocationInfo)
    (context : List LocationInfo) :
    AnomalyResult × StatisticalAnomalyDetector :=
  let combinedContext := context ++ d.history
  if combinedContext.length < d.minSampleSize then
    ({}, { d with history := statTrimHistory d.historySize (d.history ++ [location]) })
  else
    let latitudes := combinedContext.map (·.latitude)
    let longitudes := combinedContext.map (·.longitude)
    let accuracies := combinedContext.map (·.accuracy)
    let meanLat := calculateMean latitudes
    let meanLon := calculateMean longitudes
    let meanAccuracy := calculateMean accuracies
    let stdDevLat := calculateStdDevAround ops latitudes meanLat
    let stdDevLon := calculateStdDevAround ops longitudes meanLon
    let stdDevAccuracy := calculateStdDevAround ops accuracies meanAccuracy
    let zScoreLat := if stdDevLat > 0 then |location.latitude - meanLat| / stdDevLat else 0
    let zScoreLon := if stdDevLon > 0 then |location.longitude - meanLon| / stdDevLon else 0
    let zScoreAccuracy :=
      if stdDevAccuracy > 0 then |location.accuracy - meanAccuracy| / stdDevAccuracy else 0
    let isLatAnomaly := zScoreLat > d.zScoreThreshold
    let isLonAnomaly := zScoreLon > d.zScoreThreshold
    let isAccuracyAnomaly := zScoreAccuracy > d.zScoreThreshold * 2
    let isAnomaly := isLatAnomaly ∨ isLonAnomaly ∨ isAccuracyAnomaly
    let maxZScore := max (max zScoreLat zScoreLon) (zScoreAccuracy / 2)
    let confidence := min 1 ((maxZScore - d.zScoreThreshold) / d.zScoreThreshold)
    let result : AnomalyResult :=
      { isAnomaly := isAnomaly
        confidence := confidence
        anomalyInfo :=
          if isAnomaly then
            setExtra (setExtra (setExtra (setExtra (setExtra []
              "type" "STATISTICAL")
              "zScoreLat" (ops.d2s zScoreLat 2))
              "zScoreLon" (ops.d2s zScoreLon 2))
              "zScoreAccuracy" (ops.d2s zScoreAccuracy 2))
              "threshold" (ops.d2s d.zScoreThreshold 2)
          else [] }
    if ¬ isAnomaly then
      (result, { d with history := statTrimHistory d.historySize (d.history ++ [location]) })
    else (result, d)

/-- The `AnomalyDetector::detectAnomaly` specialised to the statistical
detector (threading its history state). -/
def StatisticalAnomalyDetector.detectAnomaly (ops : RealOps)
    (d : StatisticalAnomalyDetector) (location : LocationInfo)
    (context : List LocationInfo) :
    AnomalyResult × StatisticalAnomalyDetector :=
  if ¬ d.enabled ∨ context.length < d.minSampleSize then ({}, d)
  else d.doDetectAnomaly ops location context

/-- The `LocationRegion` used by pattern matching (declared in a header missing
from the sources; modelled from `isPointInRegion`'s four bounds). -/
structure LocationRegion where
  minLat : ℚ
  maxLat : ℚ
  minLon : ℚ
  maxLon : ℚ
deriving DecidableEq, Repr

/-- The `LocationPattern` (fields as read by
`PatternMatchingAnomalyDetector::matchPattern`). -/
structure LocationPattern where
  name : String
  sourceType : Option DataSourceType := none
  minAccuracy : Option ℚ := none
  maxAccuracy : Option ℚ := none
  status : Option LocationStatus := none
  region : Option LocationRegion := none
  patternExtras : ExtrasMap := []
  isStrict : Bool := false

/-- The `extras.find(key)` as used by `matchPattern`: presence-aware lookup. -/
def lookupExtra (m : ExtrasMap) (key : String) : Option String :=
  match m with
  | [] => none
  | (k, v) :: rest => if k = key then some v else lookupExtra rest key

/-- The `PatternMatchingAnomalyDetector::isPointInRegion` (lines 554–561). -/
def isPointInRegion (point : LocationInfo) (region : LocationRegion) : Bool :=
  decide (region.minLat ≤ point.latitude) && decide (point.latitude ≤ region.maxLat) &&
  decide (region.minLon ≤ point.longitude) && decide (point.longitude ≤ region.maxLon)

/-- The `PatternMatchingAnomalyDetector::matchPattern` (lines 491–551):
similarity is a weighted sum of the matching predicates (source 0.2,
accuracy range 0.2, status 0.1, region 0.3, each extra 0.05), clamped to 1
when any condition was present. -/
def matchPattern (location : LocationInfo) (pattern : LocationPattern) : ℚ :=
  let similarity : ℚ := 0
  let totalConditions : ℕ := 0
  -- source-kind condition (weight 0.2)
  let similarity := match pattern.sourceType with
    | some t => if location.sourceType = t then similarity + 2/10 else similarity
    | none => similarity
  let totalConditions := match pattern.sourceType with
    | some _ => totalConditions + 1
    | none => totalConditions
  -- accuracy-range condition (weight 0.2)
  let similarity := match pattern.minAccuracy, pattern.maxAccuracy with
    | some lo, some hi =>
      if lo ≤ location.accuracy ∧ location.accuracy ≤ hi then similarity + 2/10
      else similarity
    | _, _ => similarity
  let totalConditions := match pattern.minAccuracy, pattern.maxAccuracy with
    | some _, some _ => totalConditions + 1
    | _, _ => totalConditions
  -- status condition (weight 0.1)
  let similarity := match pattern.status with
    | some st => if location.status = st then similarity + 1/10 else similarity
    | none => similarity
  let totalConditions := match pattern.status with
    | some _ => totalConditions + 1
    | none => totalConditions
  -- region condition (weight 0.3)
  let similarity := match pattern.region with
    | some region =>
      if isPointInRegion location region then similarity + 3/10 else similarity
    | none => similarity
  let totalConditions := match pattern.region with
    | some _ => totalConditions + 1
    | none => totalConditions
  -- attribute conditions (weight 0.05 each)
  let similarity := pattern.patternExtras.foldl (fun s p =>
    if lookupExtra location.extras p.1 = some p.2 then s + 5/100 else s) similarity
  let totalConditions := totalConditions + pattern.patternExtras.length
  if totalConditions > 0 then min 1 similarity else similarity

/-- The `PatternMatchingAnomalyDetector` (lines 394–445). -/
structure PatternMatchingAnomalyDetector where
  enabled : Bool := true
  minSampleSize : ℕ := 5
  patterns : List LocationPattern := []
  patternThreshold : ℚ := 7/10

/-- The pattern loop of `PatternMatchingAnomalyDetector::doDetectAnomaly`
(lines 460–482): every matching pattern overwrites the result; a matching
strict pattern stops the loop. -/
def patternLoop (ops : RealOps) (location : LocationInfo) (patternThreshold : ℚ)
    (result : AnomalyResult) : List LocationPattern → AnomalyResult
  | [] => result
  | pattern :: rest =>
    let similarity := matchPattern location pattern
    if similarity ≥ patternThreshold then
      let result : AnomalyResult :=
        { isAnomaly := true
          confidence := similarity
          anomalyInfo := setExtra (setExtra (setExtra []
            "type" "PATTERN_MATCH")
            "patternName" pattern.name)
            "similarity" (ops.d2s similarity 3) }
      if pattern.isStrict then result
      else patternLoop ops location patternThreshold result rest
    else patternLoop ops location patternThreshold result rest

/-- The `PatternMatchingAnomalyDetector::doDetectAnomaly` (lines 448–488). -/
def PatternMatchingAnomalyDetector.doDetectAnomaly (ops : RealOps)
    (d : PatternMatchingAnomalyDetector) (location : LocationInfo) :
    AnomalyResult :=
  if d.patterns.isEmpty then {}
  else patternLoop ops location d.patternThreshold {} d.patterns

/-- The `AnomalyDetector::detectAnomaly` specialised to the pattern detector. -/
def PatternMatchingAnomalyDetector.detectAnomaly (ops : RealOps)
    (d : PatternMatchingAnomalyDetector) (location : LocationInfo)
    (context : List LocationInfo) : AnomalyResult :=
  if ¬ d.enabled ∨ context.length < d.minSampleSize then {}
  else d.doDetectAnomaly ops location

/-! ## Service ingest queue (`LocationService.cpp`) -/

/-- The `BaseLocationService::onLocationDataReceived` (`LocationService.cpp`,
lines 222–230): append the fix; if the queue then exceeds
`config_.maxQueueSize`, pop the oldest element.  The function takes no
locks beyond the queue mutex and performs no waiting; the queue is the only
state it touches (in particular, no drop counter exists). -/
def onLocationDataReceived (maxQueueSize : ℕ) (queue : List LocationInfo)
    (location : LocationInfo) : List LocationInfo :=
  let queue := queue ++ [location]
  if queue.length > maxQueueSize then queue.tail else queue

/-! ## File storage serialization (`DataStorage.cpp`) -/

/-- The numeric formatting/parsing primitives `FileStorage` takes from the
standard library (`operator<<` on `long long`/`int`/`double`, `std::stoll`,
`std::stoi`, `std::stod`).  Integer streaming round-trips exactly; double
streaming uses the stream's default 6-significant-digit precision, so its
round-trip behaviour is assumed only where a theorem states it. -/
structure Codec where
  encInt : ℤ → List Char
  decInt : List Char → Option ℤ
  encQ : ℚ → List Char
  decQ : List Char → Option ℚ

/-- The `std::getline(ss, token, ',')` driven to completion, accumulator form:
emit a token at each delimiter; at end-of-input the final segment is
emitted only if it is nonempty (a trailing `getline` that reads nothing
fails). -/
def splitCommaAux (cur : List Char) : List Char → List (List Char)
  | [] => if cur.isEmpty then [] else [cur.reverse]
  | c :: cs =>
    if c = ',' then cur.reverse :: splitCommaAux [] cs
    else splitCommaAux (c :: cur) cs

/-- Split a line on `','` with `std::getline` semantics. -/
def splitComma (l : List Char) : List (List Char) := splitCommaAux [] l

/-- The `,`-join of a token list (how the serializer's `stringstream` output is
structured). -/
def joinComma : List (List Char) → List Char
  | [] => []
  | [t] => t
  | t :: rest => t ++ ',' :: joinComma rest

/-- The `FileStorage::serializeLocation` (`DataStorage.cpp`, lines 640–658):
CSV of the seven fixed fields followed by one `[key:value]` token per
extra, in the map's (key-sorted) iteration order. -/
def serializeLocation (c : Codec) (location : LocationInfo) : List Char :=
  joinComma
    ([c.encInt location.timestamp,
      c.encQ location.latitude,
      c.encQ location.longitude,
      c.encQ location.altitude,
      c.encQ location.accuracy,
      c.encInt location.sourceType.toInt,
      c.encInt location.status.toInt] ++
     location.extras.map fun p => '[' :: (p.1.data ++ ':' :: p.2.data) ++ [']'])

/-- The `kv.find(':')` followed by the two `substr` calls: split at the first
colon, or `none` when there is no colon. -/
def splitFirstColon : List Char → Option (List Char × List Char)
  | [] => none
  | c :: cs =>
    if c = ':' then some ([], cs)
    else match splitFirstColon cs with
      | none => none
      | some (k, v) => some (c :: k, v)

/-- The extras loop of `FileStorage::deserializeLocation` (lines 674–687):
a token of the shape `[key:value]` (length ≥ 3, bracket-delimited,
containing a colon) becomes a `setExtra`; anything else is skipped. -/
def applyExtras (location : LocationInfo) : List (List Char) → LocationInfo
  | [] => location
  | token :: rest =>
    let location :=
      if token.length ≥ 3 ∧ token.head? = some '[' ∧ token.getLast? = some ']' then
        match splitFirstColon (token.tail.dropLast) with
        | some (k, v) =>
          { location with extras := setExtra location.extras (String.mk k) (String.mk v) }
        | none => location
      else location
    applyExtras location rest

/-- The `FileStorage::deserializeLocation` (`DataStorage.cpp`, lines 661–691):
assign the fixed fields from the leading tokens (a missing token leaves the
default-constructed value, a malformed numeric token throws — modelled as
`none`), then run the extras loop over the remaining tokens. -/
def deserializeLocation (c : Codec) (line : List Char) : Option LocationInfo :=
  let loc := LocationInfo.default
  match splitComma line with
  | [] => some (applyExtras loc [])
  | t0 :: r0 =>
    match c.decInt t0 with
    | none => none
    | some ts =>
      let loc := { loc with timestamp := ts }
      match r0 with
      | [] => some loc
      | t1 :: r1 =>
        match c.decQ t1 with
        | none => none
        | some lat =>
          let loc := { loc with latitude := lat }
          match r1 with
          | [] => some loc
          | t2 :: r2 =>
            match c.decQ t2 with
            | none => none
            | some lon =>
              let loc := { loc with longitude := lon }
              match r2 with
              | [] => some loc
              | t3 :: r3 =>
                match c.decQ t3 with
                | none => none
                | some alt =>
                  let loc := { loc with altitude := alt }
                  match r3 with
                  | [] => some loc
                  | t4 :: r4 =>
                    match c.decQ t4 with
                    | none => none
                    | some acc =>
                      let loc := { loc with accuracy := acc }
                      match r4 with
                      | [] => some loc
                      | t5 :: r5 =>
                        match c.decInt t5 with
                        | none => none
                        | some src =>
                          let loc := { loc with sourceType := DataSourceType.ofInt src }
                          match r5 with
                          | [] => some loc
                          | t6 :: r6 =>
                            match c.decInt t6 with
                            | none => none
                            | some st =>
                              let loc := { loc with status := LocationStatus.ofInt st }
                              some (applyExtras loc r6)

/-! ## Concrete instances used by witnesses and counterexamples -/

/-- A concrete transcendental-kernel instance used to evaluate the
embedding on closed inputs.  It is one admissible instantiation of the
abstract kernel; theorems that use it only exercise code paths whose
branch structure does not depend on the kernel values, or state facts
(such as the converter re-applying its offset) that the accompanying
claim records also hold for the real kernel. -/
def stubOps : RealOps :=
  { sin := fun _ => 0
    cos := fun _ => 1
    sqrt := fun _ => 1
    atan2 := fun _ _ => 0
    pi := 3
    d2s := fun _ _ => "" }

/-- Kernel instance whose `sqrt` is constantly `0`: used on inputs where
`sqrt` is only ever applied to `0` (where the real `sqrt` is also `0`). -/
def stubOpsSqrt0 : RealOps := { stubOps with sqrt := fun _ => 0 }

/-- Decimal digits of a natural number. -/
def natToChars (n : ℕ) : List Char := Nat.toDigits 10 n

/-- Parse a nonempty all-digit character list as a natural number. -/
def charsToNat : List Char → Option ℕ
  | [] => none
  | cs => cs.foldl (fun acc c =>
      match acc with
      | none => none
      | some n => if c.isDigit then some (n * 10 + (c.toNat - 48)) else none)
      (some 0)

/-- Decimal rendering of an integer. -/
def intToChars (i : ℤ) : List Char :=
  if i < 0 then '-' :: natToChars i.natAbs else natToChars i.toNat

/-- Parse an optionally-signed decimal integer. -/
def charsToInt : List Char → Option ℤ
  | '-' :: rest => (charsToNat rest).map fun n => -(n : ℤ)
  | cs => (charsToNat cs).map fun n => (n : ℤ)

/-- A concrete `Codec` instance: exact decimal integers, and a double
codec adequate for the zero-valued doubles of the closed statements below
(where its round-trip equations are discharged by evaluation). -/
def sampleCodec : Codec :=
  { encInt := intToChars
    decInt := charsToInt
    encQ := fun _ => ['0']
    decQ := fun cs => if cs = ['0'] then some (0 : ℚ) else none }

/-- A valid fix fixture. -/
def mkFix (lat lon acc : ℚ) (ts : ℤ) (src : DataSourceType) : LocationInfo :=
  { LocationInfo.default with
    latitude := lat
    longitude := lon
    accuracy := acc
    timestamp := ts
    sourceType := src
    status := .VALID }

/-- C2 fixture: a valid GNSS fix inside China. -/
def chinaFix : LocationInfo := mkFix (399/10) (1164/10) 5 1000 .GNSS

/-- C3/C8 fixture: the repeated context fix. -/
def ctxFix : LocationInfo := mkFix 10 20 5 100 .GNSS

/-- C3 fixture: a fix already tagged `ANOMALY` at the context's position. -/
def anomTaggedFix : LocationInfo :=
  { ctxFix with status := .ANOMALY, timestamp := 200 }

/-- C3/C8 fixture: a five-element context of identical fixes. -/
def ctx5 : List LocationInfo := List.replicate 5 ctxFix

/-- C4 counterexample fixture: a fix whose extra value contains a comma. -/
def commaExtraFix : LocationInfo :=
  { LocationInfo.default with
    timestamp := 1000
    sourceType := .GNSS
    status := .VALID
    extras := [("k", "a,b")] }

/-- C4 witness fixture: a fix with a benign extra. -/
def benignExtraFix : LocationInfo :=
  { LocationInfo.default with
    timestamp := 1000
    sourceType := .GNSS
    status := .VALID
    extras := [("k", "v")] }

/-- C5/C6 fixtures: single sources and a two-source set. -/
def gnssFix : LocationInfo := mkFix 30 120 5 1000 .GNSS

/-- Second contributor for the C6 counterexample. -/
def wifiFix : LocationInfo := mkFix 31 121 20 1050 .WIFI

/-- C9 fixture: five fixes distinguished by timestamp. -/
def queueFix (ts : ℤ) : LocationInfo := mkFix 1 2 3 ts .GNSS

/-- A `doProcess` stub that reports failure after mutating the copy, used
to witness the error-atomicity of `BaseDataProcessor::process`. -/
def failingDoProcess (l : LocationInfo) : DoProcessResult :=
  .ok (false, { l with latitude := 0 })

/-- A `doProcess` stub that throws, used to witness exception atomicity. -/
def throwingDoProcess (_ : LocationInfo) : DoProcessResult := .error ()

/-- C7's validity predicate exactly as the spec words it (`accuracy > 0`
strictly); compared against the code's `LocationInfo::isValid`. -/
def specValidStrict (l : LocationInfo) : Prop :=
  l.status = LocationStatus.VALID ∧
  -90 ≤ l.latitude ∧ l.latitude ≤ 90 ∧
  -180 ≤ l.longitude ∧ l.longitude ≤ 180 ∧
  0 < l.accuracy ∧
  0 < l.timestamp

/-- C7 amended: the same predicate with the inclusive accuracy bound the
code actually checks (`accuracy >= 0.0`). -/
def specValidInclusive (l : LocationInfo) : Prop :=
  l.status = LocationStatus.VALID ∧
  -90 ≤ l.latitude ∧ l.latitude ≤ 90 ∧
  -180 ≤ l.longitude ∧ l.longitude ≤ 180 ∧
  0 ≤ l.accuracy ∧
  0 < l.timestamp

/-- A priority-based fusion engine configured for single-source input
(`setMinRequiredSources(1)`). -/
def pbSingle : PriorityBasedFusion :=
  { base := { minRequiredSources := 1, fusionStrategy := .PRIORITY_BASED } }

/-- A weighted-average fusion engine with equal weights. -/
def waEqual : WeightedAverageFusion :=
  { base := {}, weightStrategy := .EQUAL_WEIGHT }

/-! ## Shared lemmas -/

/-- A fix accepted by `isValid` has status `VALID`. -/
theorem isValid_status {l : LocationInfo} (h : l.isValid = true) :
    l.status = LocationStatus.VALID := by
  simp only [LocationInfo.isValid, Bool.and_eq_true, decide_eq_true_eq] at h
  exact h.1.1.1.1.1.1

/-- Elements surviving `trimHistory` come from the original history. -/
theorem mem_trimHistory {m : Nat} {l : List LocationInfo} {x : LocationInfo}
    (h : x ∈ trimHistory m l) : x ∈ l := by
  induction l with
  | nil => simp [trimHistory] at h
  | cons a as ih =>
    simp only [trimHistory] at h
    split at h
    · exact List.mem_cons_of_mem a (ih h)
    · exact h

/-- Membership through `insertByPriority`. -/
theorem mem_insertByPriority {pri : DataSourceType → ℤ} {x a : LocationInfo}
    {l : List LocationInfo} (h : x ∈ insertByPriority pri a l) :
    x = a ∨ x ∈ l := by
  induction l with
  | nil => simp [insertByPriority] at h; exact Or.inl h
  | cons b bs ih =>
    simp only [insertByPriority] at h
    split at h
    · rcases List.mem_cons.mp h with h | h
      · exact Or.inr (List.mem_cons.mpr (Or.inl h))
      · rcases ih h with h | h
        · exact Or.inl h
        · exact Or.inr (List.mem_cons.mpr (Or.inr h))
    · rcases List.mem_cons.mp h with h | h
      · exact Or.inl h
      · exact Or.inr h

/-- Membership through the priority sort. -/
theorem mem_sortByPriority {pri : DataSourceType → ℤ} {x : LocationInfo}
    {l : List LocationInfo} (h : x ∈ sortByPriority pri l) : x ∈ l := by
  induction l with
  | nil => simp [sortByPriority] at h
  | cons a as ih =>
    simp only [sortByPriority] at h
    rcases mem_insertByPriority h with h | h
    · exact h ▸ List.mem_cons_self a as
    · exact List.mem_cons_of_mem a (ih h)

/-- Looking up the key just written by `setExtra`. -/
theorem getExtra_setExtra_same (m : ExtrasMap) (k v d : String) :
    getExtra (setExtra m k v) k d = v := by
  induction m with
  | nil => simp [setExtra, getExtra]
  | cons p rest ih =>
    obtain ⟨k', v'⟩ := p
    simp only [setExtra]
    split
    · simp [getExtra]
    · split
      · simp [getExtra]
      · rename_i h1 h2
        simp only [getExtra]
        rw [if_neg (fun he => h2 he.symm), ih]

/-- Looking up a different key through `setExtra`. -/
theorem getExtra_setExtra_ne (m : ExtrasMap) (k v : String) {k' : String}
    (hne : k ≠ k') (d : String) :
    getExtra (setExtra m k v) k' d = getExtra m k' d := by
  induction m with
  | nil => simp [setExtra, getExtra, hne]
  | cons p rest ih =>
    obtain ⟨k0, v0⟩ := p
    simp only [setExtra]
    split
    · simp [getExtra, hne]
    · split
      · rename_i h1 h2
        subst h2
        simp [getExtra, hne]
      · simp only [getExtra, ih]

/-! ## C7 — validity predicate -/

/-- C7 counterexample: a fix with `accuracy = 0` (status `VALID`, in-range
coordinates, positive time) is accepted by `LocationInfo::isValid`, yet the
claim's predicate demands `accuracy > 0`; the claimed equivalence fails at
this input. -/
theorem C7_counterexample :
    (mkFix 0 0 0 1 .GNSS).isValid = true ∧ ¬ specValidStrict (mkFix 0 0 0 1 .GNSS) := by
  unfold specValidStrict
  decide

/-- C7 (amended): a fix is accepted by `LocationInfo::isValid` iff its
status is `VALID`, its coordinates are in range, its accuracy is
**at least** 0, and its capture time is positive. -/
theorem C7_isValid_characterisation (l : LocationInfo) :
    l.isValid = true ↔ specValidInclusive l := by
  simp only [LocationInfo.isValid, specValidInclusive, Bool.and_eq_true,
    decide_eq_true_eq, and_assoc]

/-! ## C9 — ingest queue overflow -/

/-- C9: pushing into a full queue evicts the oldest element and keeps the
rest in arrival order.  The queue is the only state
`onLocationDataReceived` touches: no drop counter exists to increment. -/
theorem C9_overflow_evicts_oldest :
    onLocationDataReceived 4
      [queueFix 1, queueFix 2, queueFix 3, queueFix 4] (queueFix 5) =
      [queueFix 2, queueFix 3, queueFix 4, queueFix 5] ∧
    onLocationDataReceived 4
      [queueFix 1, queueFix 2, queueFix 3] (queueFix 4) =
      [queueFix 1, queueFix 2, queueFix 3, queueFix 4] := by
  constructor <;> rfl

/-! ## C10 — stage error atomicity -/

/-- C10: `BaseDataProcessor::process` always returns a non-null location,
and returns the input unchanged whenever the stage is disabled, its
`doProcess` reports failure, or `doProcess` throws. -/
theorem C10_process_nonnull_and_atomic (enabled : Bool)
    (doP : LocationInfo → DoProcessResult) (loc : LocationInfo) :
    (BaseDataProcessor.process enabled doP loc).isSome = true ∧
    (enabled = false → BaseDataProcessor.process enabled doP loc = some loc) ∧
    (doP loc = .error () → BaseDataProcessor.process enabled doP loc = some loc) ∧
    (∀ l', doP loc = .ok (false, l') → BaseDataProcessor.process enabled doP loc = some loc) := by
  unfold BaseDataProcessor.process
  refine ⟨?_, ?_, ?_, ?_⟩
  · cases enabled with
    | false => simp
    | true =>
      simp only [Bool.not_true, Bool.false_eq_true, if_false]
      cases doP loc with
      | error e => simp
      | ok p =>
        obtain ⟨success, l'⟩ := p
        cases success <;> simp
  · intro h; subst h; simp
  · intro h; rw [h]; simp
  · intro l' h; rw [h]; simp

/-- C10 witness: at a concrete fix, a disabled stage, a failing stage and a
throwing stage all return the input unchanged, and the result is non-null. -/
theorem C10_witness :
    (BaseDataProcessor.process true failingDoProcess gnssFix).isSome = true ∧
    BaseDataProcessor.process false failingDoProcess gnssFix = some gnssFix ∧
    BaseDataProcessor.process true failingDoProcess gnssFix = some gnssFix ∧
    BaseDataProcessor.process true throwingDoProcess gnssFix = some gnssFix :=
  ⟨(C10_process_nonnull_and_atomic true failingDoProcess gnssFix).1,
   (C10_process_nonnull_and_atomic false failingDoProcess gnssFix).2.1 rfl,
   (C10_process_nonnull_and_atomic true failingDoProcess gnssFix).2.2.2
     { gnssFix with latitude := 0 } rfl,
   (C10_process_nonnull_and_atomic true throwingDoProcess gnssFix).2.2.1 rfl⟩

/-! ## C5 — single-source fusion -/

/-- C5 counterexample: with `minRequiredSources = 1`, fusing the single
valid GNSS fix does **not** return that fix unchanged — the result carries
`sourceType = FUSED`, `status = NORMAL` and fusion metadata in its extras
(and no confidence field exists to carry a priority weight). -/
theorem C5_counterexample :
    DataFusion.fuse pbSingle.base pbSingle.doFuse [gnssFix] ≠ some gnssFix ∧
    (DataFusion.fuse pbSingle.base pbSingle.doFuse [gnssFix]).map (·.sourceType) =
      some DataSourceType.FUSED ∧
    gnssFix.sourceType = DataSourceType.GNSS := by
  refine ⟨?_, by decide, by decide⟩
  decide

/-- C5 (amended): with `minRequiredSources ≤ 1`, priority-based fusion of a
single valid fix returns a location with the same coordinates, altitude,
accuracy, speed and timestamp as the input, but with `status = NORMAL`,
`sourceType = FUSED`, and the selected source's priority recorded as the
`"selectedSourcePriority"` extra (there is no numeric confidence field). -/
theorem C5_single_source_fusion (f : PriorityBasedFusion) (fix : LocationInfo)
    (hen : f.base.enabled = true) (hmin : f.base.minRequiredSources ≤ 1)
    (hv : fix.isValid = true) :
    ∃ g, DataFusion.fuse f.base f.doFuse [fix] = some g ∧
      g.latitude = fix.latitude ∧ g.longitude = fix.longitude ∧
      g.altitude = fix.altitude ∧ g.accuracy = fix.accuracy ∧
      g.speed = fix.speed ∧ g.timestamp = fix.timestamp ∧
      g.status = LocationStatus.NORMAL ∧ g.sourceType = DataSourceType.FUSED ∧
      getExtra g.extras "selectedSourcePriority" "" =
        intToString (f.sourcePriorities fix.sourceType) := by
  have hstat : fix.status = LocationStatus.VALID := isValid_status hv
  have hfilter : [fix].filter
      (fun location => location.isValid && location.status ≠ LocationStatus.ANOMALY) = [fix] := by
    simp [List.filter, hv, hstat]
  have hlen : ¬ (([fix] : List LocationInfo).length < f.base.minRequiredSources) := by
    simp only [List.length_singleton]; omega
  unfold DataFusion.fuse
  rw [hen]
  rw [if_neg (by simp), if_neg hlen, hfilter, if_neg hlen]
  unfold PriorityBasedFusion.doFuse
  simp only [sortByPriority, insertByPriority]
  refine ⟨_, rfl, rfl, rfl, rfl, rfl, rfl, rfl, rfl, rfl, ?_⟩
  have hne1 : ("sourceCount" : String) ≠ "selectedSourcePriority" := by decide
  have hne2 : ("fusionStrategy" : String) ≠ "selectedSourcePriority" := by decide
  simp only [getExtra_setExtra_ne _ _ _ hne1, getExtra_setExtra_ne _ _ _ hne2,
    getExtra_setExtra_same]

/-- C5 witness: the amended statement evaluated at the single GNSS fix with
`minRequiredSources = 1`. -/
theorem C5_witness :
    ∃ g, DataFusion.fuse pbSingle.base pbSingle.doFuse [gnssFix] = some g ∧
      g.latitude = gnssFix.latitude ∧ g.longitude = gnssFix.longitude ∧
      g.altitude = gnssFix.altitude ∧ g.accuracy = gnssFix.accuracy ∧
      g.speed = gnssFix.speed ∧ g.timestamp = gnssFix.timestamp ∧
      g.status = LocationStatus.NORMAL ∧ g.sourceType = DataSourceType.FUSED ∧
      getExtra g.extras "selectedSourcePriority" "" =
        intToString (pbSingle.sourcePriorities gnssFix.sourceType) :=
  C5_single_source_fusion pbSingle gnssFix rfl (by decide) (by decide)

/-! ## C6 — fused output timestamp -/

/-- C6 counterexample: a successful weighted-average fusion run at wall
clock 2000 over contributors with timestamps 1000 and 1050 outputs
timestamp 2000, not the contributors' maximum 1050. -/
theorem C6_counterexample :
    (DataFusion.fuse waEqual.base
        (fun ls => some (waEqual.doFuse stubOps 2000 ls))
        [gnssFix, wifiFix]).map (·.timestamp) = some 2000 ∧
    (2000 : ℤ) ≠ max gnssFix.timestamp wifiFix.timestamp := by
  constructor
  · decide
  · decide

/-- C6 (amended): the weighted-average fused output's timestamp is the
fusion-time clock value (`getCurrentTimestampMs()`), while the
priority-based fused output's timestamp is that of one of the contributors
(the selected one) — neither is computed as the contributors' maximum. -/
theorem C6_output_timestamps :
    (∀ (ops : RealOps) (now : ℤ) (f : WeightedAverageFusion)
        (locs : List LocationInfo), (f.doFuse ops now locs).timestamp = now) ∧
    (∀ (f : PriorityBasedFusion) (locs : List LocationInfo) (g : LocationInfo),
        f.doFuse locs = some g → g.timestamp ∈ locs.map (·.timestamp)) := by
  constructor
  · intro ops now f locs
    rfl
  · intro f locs g h
    unfold PriorityBasedFusion.doFuse at h
    rcases hs : sortByPriority f.sourcePriorities locs with _ | ⟨best, rest⟩
    · rw [hs] at h; exact absurd h (by simp)
    · rw [hs] at h
      simp only [Option.some.injEq] at h
      have hb : best ∈ locs := mem_sortByPriority (hs ▸ List.mem_cons_self best rest)
      have : g.timestamp = best.timestamp := by rw [← h]
      rw [this]
      exact List.mem_map.mpr ⟨best, hb, rfl⟩

/-- C6 witness: the amended statement evaluated at concrete inputs. -/
theorem C6_witness :
    (waEqual.doFuse stubOps 777 [gnssFix]).timestamp = 777 ∧
    ∃ g, PriorityBasedFusion.doFuse {} [gnssFix, wifiFix] = some g ∧
      g.timestamp ∈ [gnssFix, wifiFix].map (·.timestamp) := by
  have hsome : (PriorityBasedFusion.doFuse {} [gnssFix, wifiFix]).isSome = true := by decide
  refine ⟨C6_output_timestamps.1 stubOps 777 waEqual [gnssFix],
    ⟨_, (Option.some_get hsome).symm,
      C6_output_timestamps.2 {} [gnssFix, wifiFix] _ (Option.some_get hsome).symm⟩⟩

/-! ## C3 — anomaly-tagged fixes and detector history -/

/-- C3 counterexample: calling the statistical detector on a fix already
tagged `ANOMALY` (over a five-fix context in which the fix is statistically
normal) pushes that anomaly-tagged fix into the detector's sliding-window
history.  (`stubOpsSqrt0` is evaluated at `sqrt 0` only, where the real
square root is also `0`.) -/
theorem C3_counterexample :
    anomTaggedFix.status = LocationStatus.ANOMALY ∧
    (StatisticalAnomalyDetector.detectAnomaly stubOpsSqrt0 {} anomTaggedFix ctx5).2.history =
      [anomTaggedFix] := by
  constructor
  · rfl
  · norm_num [StatisticalAnomalyDetector.detectAnomaly,
      StatisticalAnomalyDetector.doDetectAnomaly, ctx5, ctxFix, anomTaggedFix, mkFix,
      calculateMean, calculateStdDevAround, statTrimHistory, stubOpsSqrt0, stubOps,
      List.replicate, LocationInfo.default]

/-- C3 (amended): the outlier-detection *processor* maintains the claimed
invariant — if its history contains no anomaly-tagged fix, it still
contains none after processing any fix (anomalous fixes are marked and
withheld; only status-`VALID` fixes are pushed). -/
theorem C3_outlier_history_no_anomaly (ops : RealOps)
    (p : OutlierDetectionProcessor) (loc : LocationInfo)
    (h : (p.history.all fun l => l.status != LocationStatus.ANOMALY) = true) :
    (((p.doProcess ops loc).1.history).all
      fun l => l.status != LocationStatus.ANOMALY) = true := by
  simp only [List.all_eq_true, bne_iff_ne, ne_eq] at h ⊢
  intro l hl
  by_cases hv : loc.isValid = true
  case neg =>
    unfold OutlierDetectionProcessor.doProcess at hl
    rw [if_pos hv] at hl
    exact h l hl
  case pos =>
    have hstat := isValid_status hv
    unfold OutlierDetectionProcessor.doProcess at hl
    rw [if_neg (by simp [hv])] at hl
    by_cases hlen : p.history.length < p.minSampleSize
    · rw [if_pos hlen] at hl
      simp only at hl
      rcases List.mem_append.mp hl with hl | hl
      · exact h l hl
      · have : l = loc := by simpa using hl
        subst this
        rw [hstat]
        simp
    · rw [if_neg hlen] at hl
      simp only at hl
      split at hl
      · simp only at hl
        exact h l hl
      · simp only at hl
        rcases List.mem_append.mp (mem_trimHistory hl) with hl | hl
        · exact h l hl
        · have : l = loc := by simpa using hl
          subst this
          rw [hstat]
          simp

/-- C3 witness: the amended invariant evaluated at an empty history and a
concrete valid fix. -/
theorem C3_witness :
    ((((OutlierDetectionProcessor.doProcess stubOps {} gnssFix).1.history).all
      fun l => l.status != LocationStatus.ANOMALY) = true) :=
  C3_outlier_history_no_anomaly stubOps {} gnssFix (by decide)

/-! ## C8 — detector confidence range -/

/-- C8 counterexample: over a five-fix context of identical fixes (all
standard deviations are zero), the statistical detector returns confidence
`-1`, outside `[0, 1]`, for a perfectly normal fix. -/
theorem C8_counterexample :
    (StatisticalAnomalyDetector.detectAnomaly stubOpsSqrt0 {} ctxFix ctx5).1.confidence = -1 ∧
    ¬ (0 ≤ (StatisticalAnomalyDetector.detectAnomaly stubOpsSqrt0 {} ctxFix ctx5).1.confidence) := by
  have h : (StatisticalAnomalyDetector.detectAnomaly stubOpsSqrt0 {} ctxFix ctx5).1.confidence = -1 := by
    norm_num [StatisticalAnomalyDetector.detectAnomaly,
      StatisticalAnomalyDetector.doDetectAnomaly, ctx5, ctxFix, mkFix,
      calculateMean, calculateStdDevAround, statTrimHistory, stubOpsSqrt0, stubOps,
      List.replicate, LocationInfo.default, min_def]
  rw [h]
  norm_num

/-- The extras accumulation of `matchPattern` keeps the similarity
nonnegative. -/
theorem foldl_extras_nonneg (loc : LocationInfo) (l : List (String × String))
    (init : ℚ) (h : 0 ≤ init) :
    0 ≤ l.foldl (fun s p =>
      if lookupExtra loc.extras p.1 = some p.2 then s + 5/100 else s) init := by
  induction l generalizing init with
  | nil => simpa using h
  | cons p ps ih =>
    simp only [List.foldl_cons]
    refine ih _ ?_
    split
    · linarith
    · exact h

/-- Conditional weight additions keep the similarity nonnegative. -/
theorem addStep_nonneg {s w : ℚ} (c : Prop) [Decidable c] (hs : 0 ≤ s) (hw : 0 ≤ w) :
    0 ≤ if c then s + w else s := by
  split
  · linarith
  · exact hs

/-- The `matchPattern` similarities are nonnegative. -/
theorem matchPattern_nonneg (loc : LocationInfo) (pat : LocationPattern) :
    0 ≤ matchPattern loc pat := by
  unfold matchPattern
  simp only
  have h1 : (0:ℚ) ≤ match pat.sourceType with
      | some t => if loc.sourceType = t then 0 + 2/10 else 0
      | none => 0 := by
    cases pat.sourceType
    · norm_num
    · exact addStep_nonneg _ le_rfl (by norm_num)
  have h2 : ∀ s : ℚ, 0 ≤ s → (0:ℚ) ≤ match pat.minAccuracy, pat.maxAccuracy with
      | some lo, some hi =>
        if lo ≤ loc.accuracy ∧ loc.accuracy ≤ hi then s + 2/10 else s
      | _, _ => s := by
    intro s hs
    cases pat.minAccuracy <;> cases pat.maxAccuracy <;>
      first
        | exact hs
        | exact addStep_nonneg _ hs (by norm_num)
  have h3 : ∀ s : ℚ, 0 ≤ s → (0:ℚ) ≤ match pat.status with
      | some st => if loc.status = st then s + 1/10 else s
      | none => s := by
    intro s hs
    cases pat.status
    · exact hs
    · exact addStep_nonneg _ hs (by norm_num)
  have h4 : ∀ s : ℚ, 0 ≤ s → (0:ℚ) ≤ match pat.region with
      | some region => if isPointInRegion loc region then s + 3/10 else s
      | none => s := by
    intro s hs
    cases pat.region
    · exact hs
    · exact addStep_nonneg _ hs (by norm_num)
  have hfold := foldl_extras_nonneg loc pat.patternExtras _
    (h4 _ (h3 _ (h2 _ h1)))
  split
  · exact le_min (by norm_num) hfold
  · exact hfold

/-- The `matchPattern` similarities are at most one. -/
theorem matchPattern_le_one (loc : LocationInfo) (pat : LocationPattern) :
    matchPattern loc pat ≤ 1 := by
  unfold matchPattern
  simp only
  split
  · exact min_le_left _ _
  · rename_i hc
    rcases hst : pat.sourceType with _ | t <;>
    rcases hacc1 : pat.minAccuracy with _ | lo <;>
    rcases hacc2 : pat.maxAccuracy with _ | hi <;>
    rcases hstat : pat.status with _ | st <;>
    rcases hreg : pat.region with _ | reg <;>
    simp only [hst, hacc1, hacc2, hstat, hreg] at hc ⊢ <;>
    first
      | (exfalso; omega)
      | (have hlen : pat.patternExtras.length = 0 := by omega
         rw [List.length_eq_zero] at hlen
         rw [hlen]
         norm_num)

/-- The pattern loop keeps confidence inside `[0, 1]`. -/
theorem patternLoop_confidence_bounds (ops : RealOps) (loc : LocationInfo)
    (threshold : ℚ) (pats : List LocationPattern) (r : AnomalyResult)
    (h0 : 0 ≤ r.confidence) (h1 : r.confidence ≤ 1) :
    0 ≤ (patternLoop ops loc threshold r pats).confidence ∧
    (patternLoop ops loc threshold r pats).confidence ≤ 1 := by
  induction pats generalizing r with
  | nil => exact ⟨h0, h1⟩
  | cons pat rest ih =>
    simp only [patternLoop]
    split
    · split
      · exact ⟨matchPattern_nonneg loc pat, matchPattern_le_one loc pat⟩
      · exact ih _ (matchPattern_nonneg loc pat) (matchPattern_le_one loc pat)
    · exact ih _ h0 h1

/-- C8 (amended): the time-gap detector's confidence lies in `[0, 1]`
(given the nonnegative configured window), as does the speed detector's
(given a positive configured maximum speed) and the pattern detector's; the
statistical detector guarantees only `confidence ≤ 1` — its confidence is
negative whenever the largest z-score falls below the threshold. -/
theorem C8_detector_confidence_ranges :
    (∀ (d : TimeDifferenceAnomalyDetector) (now : ℤ) (loc : LocationInfo)
        (ctx : List LocationInfo), 0 ≤ d.maxTimeDiff →
        0 ≤ (d.detectAnomaly now loc ctx).confidence ∧
        (d.detectAnomaly now loc ctx).confidence ≤ 1) ∧
    (∀ (ops : RealOps) (d : DistanceDeviationAnomalyDetector)
        (loc : LocationInfo) (ctx : List LocationInfo), 0 < d.maxSpeed →
        0 ≤ (d.detectAnomaly ops loc ctx).confidence ∧
        (d.detectAnomaly ops loc ctx).confidence ≤ 1) ∧
    (∀ (ops : RealOps) (d : StatisticalAnomalyDetector) (loc : LocationInfo)
        (ctx : List LocationInfo),
        (d.detectAnomaly ops loc ctx).1.confidence ≤ 1) ∧
    (∀ (ops : RealOps) (d : PatternMatchingAnomalyDetector) (loc : LocationInfo)
        (ctx : List LocationInfo),
        0 ≤ (d.detectAnomaly ops loc ctx).confidence ∧
        (d.detectAnomaly ops loc ctx).confidence ≤ 1) := by
  refine ⟨?_, ?_, ?_, ?_⟩
  · intro d now loc ctx hmax
    unfold TimeDifferenceAnomalyDetector.detectAnomaly
    split
    · norm_num
    · unfold TimeDifferenceAnomalyDetector.doDetectAnomaly
      simp only
      by_cases hgt : now - loc.timestamp > d.maxTimeDiff
      · simp only [if_pos hgt]
        constructor
        · refine le_min (by norm_num) (div_nonneg ?_ ?_)
          · exact_mod_cast le_of_lt (lt_of_le_of_lt hmax hgt)
          · exact_mod_cast hmax
        · exact min_le_left _ _
      · simp only [if_neg hgt]
        norm_num
  · intro ops d loc ctx hspeed
    unfold DistanceDeviationAnomalyDetector.detectAnomaly
    split
    · norm_num
    · unfold DistanceDeviationAnomalyDetector.doDetectAnomaly
      split
      · norm_num
      · split
        · norm_num
        · rename_i p mtd heq
          by_cases hmtd : mtd > 0
          · simp only [if_pos hmtd]
            by_cases hgt :
                calculateDistance ops p.latitude p.longitude
                  loc.latitude loc.longitude / ((mtd : ℚ) / 1000) > d.maxSpeed
            · simp only [if_pos hgt]
              constructor
              · refine le_min (by norm_num) ?_
                have h1 : (1 : ℚ) <
                    calculateDistance ops p.latitude p.longitude
                      loc.latitude loc.longitude / ((mtd : ℚ) / 1000) / d.maxSpeed :=
                  (one_lt_div hspeed).mpr hgt
                linarith
              · exact min_le_left _ _
            · simp only [if_neg hgt]
              norm_num
          · simp only [if_neg hmtd]
            norm_num
  · intro ops d loc ctx
    unfold StatisticalAnomalyDetector.detectAnomaly
    split
    · norm_num
    · unfold StatisticalAnomalyDetector.doDetectAnomaly
      simp only
      repeat' split
      all_goals first
        | exact min_le_left _ _
        | norm_num
  · intro ops d loc ctx
    unfold PatternMatchingAnomalyDetector.detectAnomaly
    split
    · norm_num
    · unfold PatternMatchingAnomalyDetector.doDetectAnomaly
      split
      · norm_num
      · exact patternLoop_confidence_bounds ops loc d.patternThreshold d.patterns {}
          (by norm_num) (by norm_num)

/-- C8 witness: the amended bounds evaluated at concrete detectors with
their default configurations. -/
theorem C8_witness :
    (0 ≤ (TimeDifferenceAnomalyDetector.detectAnomaly {} 0 gnssFix []).confidence ∧
      (TimeDifferenceAnomalyDetector.detectAnomaly {} 0 gnssFix []).confidence ≤ 1) ∧
    (0 ≤ (DistanceDeviationAnomalyDetector.detectAnomaly stubOps {} gnssFix []).confidence ∧
      (DistanceDeviationAnomalyDetector.detectAnomaly stubOps {} gnssFix []).confidence ≤ 1) ∧
    ((StatisticalAnomalyDetector.detectAnomaly stubOpsSqrt0 {} ctxFix ctx5).1.confidence ≤ 1) ∧
    (0 ≤ (PatternMatchingAnomalyDetector.detectAnomaly stubOps {} gnssFix []).confidence ∧
      (PatternMatchingAnomalyDetector.detectAnomaly stubOps {} gnssFix []).confidence ≤ 1) :=
  ⟨C8_detector_confidence_ranges.1 {} 0 gnssFix [] (by norm_num),
   C8_detector_confidence_ranges.2.1 stubOps {} gnssFix [] (by norm_num),
   C8_detector_confidence_ranges.2.2.1 stubOpsSqrt0 {} ctxFix ctx5,
   C8_detector_confidence_ranges.2.2.2 stubOps {} gnssFix []⟩

/-! ## C1 — weighted-average fusion stays in the bounding box -/

/-- Sum of a constant map. -/
theorem sum_map_const_q {α : Type} (l : List α) (c : ℚ) :
    (l.map fun _ => c).sum = l.length * c := by
  induction l with
  | nil => simp
  | cons a as ih =>
    simp only [List.map_cons, List.sum_cons, ih, List.length_cons]
    push_cast
    ring

/-- Sum of a pointwise division. -/
theorem sum_map_div_q {α : Type} (l : List α) (g : α → ℚ) (c : ℚ) :
    (l.map fun x => g x / c).sum = (l.map g).sum / c := by
  induction l with
  | nil => simp
  | cons a as ih =>
    simp only [List.map_cons, List.sum_cons, ih]
    ring

/-- A nonempty list of positive rationals has positive sum. -/
theorem list_sum_pos {l : List ℚ} (hpos : ∀ x ∈ l, 0 < x) (hne : l ≠ []) :
    0 < l.sum := by
  induction l with
  | nil => exact absurd rfl hne
  | cons a as ih =>
    simp only [List.sum_cons]
    have ha := hpos a (List.mem_cons_self a as)
    cases as with
    | nil => simpa using ha
    | cons b bs =>
      have hbs : 0 < (b :: bs).sum :=
        ih (fun x hx => hpos x (List.mem_cons_of_mem a hx)) (by simp)
      linarith

/-- Bounds for a weighted sum with nonnegative weights. -/
theorem zip_sum_bounds (locs : List LocationInfo) (ws : List ℚ)
    (f : LocationInfo → ℚ) (lo hi : ℚ)
    (hlen : locs.length = ws.length)
    (hw : ∀ w ∈ ws, 0 ≤ w)
    (hf : ∀ l ∈ locs, lo ≤ f l ∧ f l ≤ hi) :
    lo * ws.sum ≤ (List.zipWith (fun l w => f l * w) locs ws).sum ∧
    (List.zipWith (fun l w => f l * w) locs ws).sum ≤ hi * ws.sum := by
  induction locs generalizing ws with
  | nil =>
    cases ws with
    | nil => simp
    | cons w ws' => simp at hlen
  | cons l ls ih =>
    cases ws with
    | nil => simp at hlen
    | cons w ws' =>
      simp only [List.zipWith_cons_cons, List.sum_cons]
      have hw0 : 0 ≤ w := hw w (List.mem_cons_self w ws')
      have hl := hf l (List.mem_cons_self l ls)
      have hrest := ih ws' (by simpa using hlen)
        (fun x hx => hw x (List.mem_cons_of_mem w hx))
        (fun x hx => hf x (List.mem_cons_of_mem l hx))
      have hlo : lo * w ≤ f l * w := mul_le_mul_of_nonneg_right hl.1 hw0
      have hhi : f l * w ≤ hi * w := mul_le_mul_of_nonneg_right hl.2 hw0
      constructor
      · calc lo * (w + ws'.sum) = lo * w + lo * ws'.sum := by ring
          _ ≤ f l * w + (List.zipWith (fun l w => f l * w) ls ws').sum := by
              exact add_le_add hlo hrest.1
      · calc f l * w + (List.zipWith (fun l w => f l * w) ls ws').sum
            ≤ hi * w + hi * ws'.sum := add_le_add hhi hrest.2
          _ = hi * (w + ws'.sum) := by ring

/-- The weights computed by `WeightedAverageFusion::calculateWeights` are
nonnegative, sum to one, and match the input list in length (for nonempty
input and the nonnegative custom-weight maps every reachable state has). -/
theorem calculateWeights_spec (f : WeightedAverageFusion)
    (locs : List LocationInfo) (hne : locs ≠ [])
    (hcw : ∀ t, 0 ≤ f.customWeights t) :
    (∀ w ∈ f.calculateWeights locs, 0 ≤ w) ∧
    (f.calculateWeights locs).sum = 1 ∧
    (f.calculateWeights locs).length = locs.length := by
  have hlenpos : 0 < locs.length := List.length_pos.mpr hne
  have hlenq : (locs.length : ℚ) ≠ 0 := by
    exact_mod_cast Nat.pos_iff_ne_zero.mp hlenpos
  unfold WeightedAverageFusion.calculateWeights
  cases hstrat : f.weightStrategy with
  | EQUAL_WEIGHT =>
    refine ⟨?_, ?_, by simp⟩
    · intro w hw
      rcases List.mem_map.mp hw with ⟨l, _, rfl⟩
      positivity
    · rw [sum_map_const_q, mul_one_div, div_self hlenq]
  | ACCURACY_BASED =>
    have hterm : ∀ l ∈ locs,
        (0:ℚ) < if l.accuracy > 0 then 1 / l.accuracy else 1 := by
      intro l _
      split
      · rename_i h; positivity
      · norm_num
    have htot : 0 < (locs.map fun location =>
        if location.accuracy > 0 then 1 / location.accuracy else 1).sum := by
      apply list_sum_pos
      · intro x hx
        rcases List.mem_map.mp hx with ⟨l, hl, rfl⟩
        exact hterm l hl
      · simpa using hne
    set total := (locs.map fun location =>
      if location.accuracy > 0 then 1 / location.accuracy else 1).sum with htotal
    have heq : (locs.map fun location =>
        if total > 0 then
          if location.accuracy > 0 then 1 / location.accuracy / total else 1 / total
        else 1 / locs.length) =
        locs.map fun location =>
          (if location.accuracy > 0 then 1 / location.accuracy else 1) / total := by
      apply List.map_congr_left
      intro l _
      rw [if_pos htot]
      split <;> rfl
    refine ⟨?_, ?_, by simp⟩
    · intro w hw
      rcases List.mem_map.mp hw with ⟨l, hl, rfl⟩
      rw [if_pos htot]
      have := hterm l hl
      split at this <;> split <;> positivity
    · rw [heq, sum_map_div_q, ← htotal, div_self (ne_of_gt htot)]
  | CUSTOM =>
    by_cases htot : (0:ℚ) <
        (locs.map fun location => f.customWeights location.sourceType).sum
    · have heq : (locs.map fun location =>
          if (locs.map fun location => f.customWeights location.sourceType).sum > 0 then
            f.customWeights location.sourceType /
              (locs.map fun location => f.customWeights location.sourceType).sum
          else 1 / locs.length) =
          locs.map fun location =>
            f.customWeights location.sourceType /
              (locs.map fun location => f.customWeights location.sourceType).sum := by
        apply List.map_congr_left
        intro l _
        rw [if_pos htot]
      refine ⟨?_, ?_, by simp⟩
      · intro w hw
        rcases List.mem_map.mp hw with ⟨l, hl, rfl⟩
        rw [if_pos htot]
        exact div_nonneg (hcw _) (le_of_lt htot)
      · rw [heq, sum_map_div_q, div_self (ne_of_gt htot)]
    · have heq : (locs.map fun location =>
          if (locs.map fun location => f.customWeights location.sourceType).sum > 0 then
            f.customWeights location.sourceType /
              (locs.map fun location => f.customWeights location.sourceType).sum
          else 1 / locs.length) =
          locs.map fun _ => 1 / (locs.length : ℚ) := by
        apply List.map_congr_left
        intro l _
        rw [if_neg htot]
      refine ⟨?_, ?_, by simp⟩
      · intro w hw
        rcases List.mem_map.mp hw with ⟨l, hl, rfl⟩
        rw [if_neg htot]
        positivity
      · rw [heq, sum_map_const_q, mul_one_div, div_self hlenq]

/-- C1: for every nonempty list of valid contributor fixes and every
weight strategy (equal, accuracy-based or custom — custom weight maps are
nonnegative in every reachable state since `setCustomWeight` clamps at 0),
the weighted-average fused coordinate lies within every axis-aligned box
containing all contributors; in particular within the contributors'
bounding box. -/
theorem C1_weighted_fusion_bounding_box (ops : RealOps) (now : ℤ)
    (f : WeightedAverageFusion) (locs : List LocationInfo)
    (latLo latHi lonLo lonHi : ℚ)
    (hne : locs ≠ [])
    (_hvalid : ∀ l ∈ locs, l.isValid = true)
    (hcw : ∀ t, 0 ≤ f.customWeights t)
    (hlat : ∀ l ∈ locs, latLo ≤ l.latitude ∧ l.latitude ≤ latHi)
    (hlon : ∀ l ∈ locs, lonLo ≤ l.longitude ∧ l.longitude ≤ lonHi) :
    (latLo ≤ (f.doFuse ops now locs).latitude ∧
      (f.doFuse ops now locs).latitude ≤ latHi) ∧
    (lonLo ≤ (f.doFuse ops now locs).longitude ∧
      (f.doFuse ops now locs).longitude ≤ lonHi) := by
  obtain ⟨hw0, hwsum, hwlen⟩ := calculateWeights_spec f locs hne hcw
  have hblat := zip_sum_bounds locs (f.calculateWeights locs) (·.latitude)
    latLo latHi hwlen.symm hw0 hlat
  have hblon := zip_sum_bounds locs (f.calculateWeights locs) (·.longitude)
    lonLo lonHi hwlen.symm hw0 hlon
  rw [hwsum, mul_one, mul_one] at hblat hblon
  unfold WeightedAverageFusion.doFuse
  simp only
  exact ⟨hblat, hblon⟩

/-- C1 witness: two concrete valid fixes, accuracy-based weights, and
their bounding box. -/
theorem C1_witness :
    (30 ≤ (WeightedAverageFusion.doFuse stubOps 2000 {} [gnssFix, wifiFix]).latitude ∧
      (WeightedAverageFusion.doFuse stubOps 2000 {} [gnssFix, wifiFix]).latitude ≤ 31) ∧
    (120 ≤ (WeightedAverageFusion.doFuse stubOps 2000 {} [gnssFix, wifiFix]).longitude ∧
      (WeightedAverageFusion.doFuse stubOps 2000 {} [gnssFix, wifiFix]).longitude ≤ 121) :=
  C1_weighted_fusion_bounding_box stubOps 2000 {} [gnssFix, wifiFix] 30 31 120 121
    (by simp) (by decide) (fun _ => by norm_num) (by decide) (by decide)

/-! ## C2 — the processor chain is not idempotent -/

/-- The two coordinate systems are distinct (helps `simp` resolve the
converter's branch). -/
theorem wgs84_ne_gcj02 : CoordinateSystem.WGS84 ≠ CoordinateSystem.GCJ02 := by
  decide

set_option maxHeartbeats 4000000 in
/-- C2: running the default chain (accuracy filter, staleness filter,
outlier detector, WGS84→GCJ02 coordinate transform) a second time on its
own output moves the latitude again: the converter re-applies its offset
because it never checks the `"coordinateSystem"` tag it writes.  Evaluated
at a fix inside China under the concrete `stubOps` kernel; the structural
re-application it exhibits is kernel-independent. -/
theorem C2_chain_not_idempotent :
    ((ProcessorChain.process stubOps 1000
        (ProcessorChain.process stubOps 1000 ({} : ProcessorChain) chinaFix).1
        (ProcessorChain.process stubOps 1000 ({} : ProcessorChain) chinaFix).2).2).latitude ≠
      ((ProcessorChain.process stubOps 1000 ({} : ProcessorChain) chinaFix).2).latitude := by
  norm_num [ProcessorChain.process, AccuracyFilterProcessor.doProcess,
    TimeFilterProcessor.doProcess, OutlierDetectionProcessor.doProcess,
    CoordinateConverterProcessor.doProcess, wgs84ToGcj02, transformLat,
    transformLon, isInsideChina, gcjEE, gcjA, stubOps, chinaFix, mkFix,
    LocationInfo.default, LocationInfo.isValid, trimHistory,
    OutlierDetectionProcessor.calculateStatistics, decide_eq_true_eq,
    wgs84_ne_gcj02]

/-! ## C4 — file-store round trip -/

/-- C4 counterexample: serialising a fix whose extra value contains a
comma and parsing the line back loses the extra entirely (the value is
split at the comma and neither fragment passes the bracket checks). -/
theorem C4_counterexample :
    (deserializeLocation sampleCodec
        (serializeLocation sampleCodec commaExtraFix)).map (·.extras) = some [] ∧
    commaExtraFix.extras = [("k", "a,b")] := by
  constructor
  · decide
  · rfl

/-- The `splitCommaAux` walks through a comma-free prefix. -/
theorem splitCommaAux_append (t : List Char) :
    ∀ (cur cs : List Char), (∀ c ∈ t, c ≠ ',') →
    splitCommaAux cur (t ++ cs) = splitCommaAux (t.reverse ++ cur) cs := by
  induction t with
  | nil => intro cur cs _; simp
  | cons c t' ih =>
    intro cur cs h
    have hc : c ≠ ',' := h c (List.mem_cons_self c t')
    simp only [List.cons_append, splitCommaAux, if_neg hc, List.append_eq]
    rw [ih (c :: cur) cs (fun x hx => h x (List.mem_cons_of_mem c hx))]
    simp

/-- Splitting a comma-join of comma-free nonempty tokens recovers the
tokens. -/
theorem splitComma_joinComma (ts : List (List Char))
    (h : ∀ t ∈ ts, (∀ c ∈ t, c ≠ ',') ∧ t ≠ []) :
    ts ≠ [] → splitComma (joinComma ts) = ts := by
  induction ts with
  | nil => intro hne; exact absurd rfl hne
  | cons t rest ih =>
    intro _
    have ht := h t (List.mem_cons_self t rest)
    cases rest with
    | nil =>
      show splitCommaAux [] t = [t]
      have heq := splitCommaAux_append t [] [] ht.1
      rw [List.append_nil] at heq
      rw [heq]
      simp [splitCommaAux, List.isEmpty_iff, ht.2]
    | cons t' rest' =>
      show splitCommaAux [] (t ++ ',' :: joinComma (t' :: rest')) = t :: (t' :: rest')
      rw [splitCommaAux_append t [] (',' :: joinComma (t' :: rest')) ht.1]
      have hrec : splitCommaAux [] (joinComma (t' :: rest')) = t' :: rest' :=
        ih (fun x hx => h x (List.mem_cons_of_mem t hx)) (by simp)
      simp [splitCommaAux, hrec]

/-- The enum casts invert each other. -/
theorem dataSourceType_ofInt_toInt (s : DataSourceType) :
    DataSourceType.ofInt s.toInt = s := by
  cases s <;> decide

/-- The status casts invert each other. -/
theorem locationStatus_ofInt_toInt (s : LocationStatus) :
    LocationStatus.ofInt s.toInt = s := by
  cases s <;> decide

/-- Splitting at the first colon of `k ++ ':' :: v` for colon-free `k`. -/
theorem splitFirstColon_append (k : List Char) (v : List Char)
    (hk : ∀ c ∈ k, c ≠ ':') :
    splitFirstColon (k ++ ':' :: v) = some (k, v) := by
  induction k with
  | nil => simp [splitFirstColon]
  | cons c k' ih =>
    have hc : c ≠ ':' := hk c (List.mem_cons_self c k')
    simp only [List.cons_append, splitFirstColon, if_neg hc, List.append_eq]
    rw [ih (fun x hx => hk x (List.mem_cons_of_mem c hx))]

/-- The extras loop over serialiser-shaped tokens performs exactly the
corresponding `setExtra` folds. -/
theorem applyExtras_tokens (es : List (String × String)) :
    ∀ loc : LocationInfo, (∀ p ∈ es, ∀ c ∈ p.1.data, c ≠ ':') →
    applyExtras loc (es.map fun p => '[' :: (p.1.data ++ ':' :: p.2.data) ++ [']']) =
      { loc with extras := es.foldl (fun m p => setExtra m p.1 p.2) loc.extras } := by
  induction es with
  | nil => intro loc _; rfl
  | cons p ps ih =>
    intro loc h
    have hk := h p (List.mem_cons_self p ps)
    simp only [List.map_cons, applyExtras]
    have hcond : ('[' :: (p.1.data ++ ':' :: p.2.data) ++ [']']).length ≥ 3 ∧
        ('[' :: (p.1.data ++ ':' :: p.2.data) ++ [']']).head? = some '[' ∧
        ('[' :: (p.1.data ++ ':' :: p.2.data) ++ [']']).getLast? = some ']' := by
      refine ⟨?_, ?_, ?_⟩
      · simp
        omega
      · simp
      · rw [show ('[' :: (p.1.data ++ ':' :: p.2.data) ++ [']']) =
            ('[' :: (p.1.data ++ ':' :: p.2.data)) ++ [']'] by simp]
        exact List.getLast?_concat _
    rw [if_pos hcond]
    have htail : ('[' :: (p.1.data ++ ':' :: p.2.data) ++ [']']).tail.dropLast =
        p.1.data ++ ':' :: p.2.data := by
      simp only [List.cons_append, List.tail_cons]
      exact List.dropLast_concat
    rw [htail, splitFirstColon_append _ _ hk]
    rw [ih _ (fun q hq => h q (List.mem_cons_of_mem p hq))]
    rfl

/-- Inserting a key above every existing key appends. -/
theorem setExtra_append (done : ExtrasMap) (k v : String)
    (h : ∀ p ∈ done, p.1 < k) : setExtra done k v = done ++ [(k, v)] := by
  induction done with
  | nil => rfl
  | cons q rest ih =>
    obtain ⟨k0, v0⟩ := q
    have hk0 : k0 < k := h (k0, v0) (List.mem_cons_self _ _)
    simp only [setExtra]
    rw [if_neg (by exact fun hlt => absurd hk0 (lt_asymm hlt)),
      if_neg (by exact fun he => absurd hk0 (by simp [he])),
      ih (fun p hp => h p (List.mem_cons_of_mem _ hp))]
    simp

/-- Folding `setExtra` over a strictly key-sorted list, starting below it,
appends the list. -/
theorem foldl_setExtra_sorted (es : List (String × String)) :
    ∀ done : ExtrasMap,
    (∀ p ∈ done, ∀ q ∈ es, p.1 < q.1) →
    List.Pairwise (fun a b => a.1 < b.1) es →
    es.foldl (fun m p => setExtra m p.1 p.2) done = done ++ es := by
  induction es with
  | nil => intro done _ _; simp
  | cons p ps ih =>
    intro done hlt hsort
    simp only [List.foldl_cons]
    rw [setExtra_append done p.1 p.2
      (fun q hq => hlt q hq p (List.mem_cons_self p ps))]
    rw [ih (done ++ [p]) ?_ (List.Pairwise.of_cons hsort)]
    · simp
    · intro q hq r hr
      rcases List.mem_append.mp hq with hq | hq
      · exact hlt q hq r (List.mem_cons_of_mem p hr)
      · have : q = p := by simpa using hq
        subst this
        exact (List.pairwise_cons.mp hsort).1 r hr

/-- Evaluating the deserialiser on a line whose tokens decode
successfully. -/
theorem deserializeLocation_tokens (c : Codec) (line : List Char)
    (t0 t1 t2 t3 t4 t5 t6 : List Char) (ext : List (List Char))
    (i0 i5 i6 : ℤ) (q1 q2 q3 q4 : ℚ)
    (hl : splitComma line = t0 :: t1 :: t2 :: t3 :: t4 :: t5 :: t6 :: ext)
    (h0 : c.decInt t0 = some i0) (h1 : c.decQ t1 = some q1)
    (h2 : c.decQ t2 = some q2) (h3 : c.decQ t3 = some q3)
    (h4 : c.decQ t4 = some q4) (h5 : c.decInt t5 = some i5)
    (h6 : c.decInt t6 = some i6) :
    deserializeLocation c line = some (applyExtras
      { LocationInfo.default with
        timestamp := i0
        latitude := q1
        longitude := q2
        altitude := q3
        accuracy := q4
        sourceType := DataSourceType.ofInt i5
        status := LocationStatus.ofInt i6 } ext) := by
  unfold deserializeLocation
  rw [hl]
  simp only [h0, h1, h2, h3, h4, h5, h6]

/-- C4 (amended): serialise/parse round-trips the seven fixed fields and
the extras map exactly, provided the numeric codec round-trips the stored
values without emitting commas (true of C++ integer streaming; true of
double streaming only when six-significant-digit formatting is lossless)
and every extra's key is free of commas and colons and every extra's value
is free of commas. -/
theorem C4_roundtrip (c : Codec) (loc : LocationInfo)
    (hts : c.decInt (c.encInt loc.timestamp) = some loc.timestamp)
    (htsn : c.encInt loc.timestamp ≠ [] ∧ ∀ ch ∈ c.encInt loc.timestamp, ch ≠ ',')
    (hsrc : c.decInt (c.encInt loc.sourceType.toInt) = some loc.sourceType.toInt)
    (hsrcn : c.encInt loc.sourceType.toInt ≠ [] ∧
      ∀ ch ∈ c.encInt loc.sourceType.toInt, ch ≠ ',')
    (hst : c.decInt (c.encInt loc.status.toInt) = some loc.status.toInt)
    (hstn : c.encInt loc.status.toInt ≠ [] ∧ ∀ ch ∈ c.encInt loc.status.toInt, ch ≠ ',')
    (hlat : c.decQ (c.encQ loc.latitude) = some loc.latitude)
    (hlatn : c.encQ loc.latitude ≠ [] ∧ ∀ ch ∈ c.encQ loc.latitude, ch ≠ ',')
    (hlon : c.decQ (c.encQ loc.longitude) = some loc.longitude)
    (hlonn : c.encQ loc.longitude ≠ [] ∧ ∀ ch ∈ c.encQ loc.longitude, ch ≠ ',')
    (halt : c.decQ (c.encQ loc.altitude) = some loc.altitude)
    (haltn : c.encQ loc.altitude ≠ [] ∧ ∀ ch ∈ c.encQ loc.altitude, ch ≠ ',')
    (hacc : c.decQ (c.encQ loc.accuracy) = some loc.accuracy)
    (haccn : c.encQ loc.accuracy ≠ [] ∧ ∀ ch ∈ c.encQ loc.accuracy, ch ≠ ',')
    (hex : ∀ p ∈ loc.extras,
      (∀ ch ∈ p.1.data, ch ≠ ',' ∧ ch ≠ ':') ∧ ∀ ch ∈ p.2.data, ch ≠ ',')
    (hsorted : List.Pairwise (fun a b => a.1 < b.1) loc.extras) :
    ∃ g, deserializeLocation c (serializeLocation c loc) = some g ∧
      g.timestamp = loc.timestamp ∧ g.latitude = loc.latitude ∧
      g.longitude = loc.longitude ∧ g.altitude = loc.altitude ∧
      g.accuracy = loc.accuracy ∧ g.sourceType = loc.sourceType ∧
      g.status = loc.status ∧ g.extras = loc.extras := by
  have hsplit : splitComma (serializeLocation c loc) =
      [c.encInt loc.timestamp, c.encQ loc.latitude, c.encQ loc.longitude,
       c.encQ loc.altitude, c.encQ loc.accuracy, c.encInt loc.sourceType.toInt,
       c.encInt loc.status.toInt] ++
      loc.extras.map fun p => '[' :: (p.1.data ++ ':' :: p.2.data) ++ [']'] := by
    unfold serializeLocation
    apply splitComma_joinComma
    · intro t htm
      rcases List.mem_append.mp htm with htm | htm
      · simp only [List.mem_cons, List.not_mem_nil, or_false] at htm
        rcases htm with rfl | rfl | rfl | rfl | rfl | rfl | rfl
        · exact ⟨htsn.2, htsn.1⟩
        · exact ⟨hlatn.2, hlatn.1⟩
        · exact ⟨hlonn.2, hlonn.1⟩
        · exact ⟨haltn.2, haltn.1⟩
        · exact ⟨haccn.2, haccn.1⟩
        · exact ⟨hsrcn.2, hsrcn.1⟩
        · exact ⟨hstn.2, hstn.1⟩
      · rcases List.mem_map.mp htm with ⟨p, hp, rfl⟩
        constructor
        · intro ch hch
          simp only [List.cons_append, List.mem_cons, List.mem_append] at hch
          rcases hch with rfl | hch
          · decide
          · rcases hch with hch | hch
            · rcases hch with hch | hch
              · exact ((hex p hp).1 ch hch).1
              · rcases hch with rfl | hch
                · decide
                · exact (hex p hp).2 ch hch
            · have : ch = ']' := by simpa using hch
              subst this
              decide
        · simp
    · simp
  have hd := deserializeLocation_tokens c (serializeLocation c loc)
    (c.encInt loc.timestamp) (c.encQ loc.latitude) (c.encQ loc.longitude)
    (c.encQ loc.altitude) (c.encQ loc.accuracy) (c.encInt loc.sourceType.toInt)
    (c.encInt loc.status.toInt)
    (loc.extras.map fun p => '[' :: (p.1.data ++ ':' :: p.2.data) ++ [']'])
    loc.timestamp loc.sourceType.toInt loc.status.toInt
    loc.latitude loc.longitude loc.altitude loc.accuracy
    (hsplit.trans (by simp)) hts hlat hlon halt hacc hsrc hst
  rw [hd, applyExtras_tokens loc.extras _ (fun p hp ch hch => ((hex p hp).1 ch hch).2)]
  refine ⟨_, rfl, rfl, rfl, rfl, rfl, rfl, ?_, ?_, ?_⟩
  · exact dataSourceType_ofInt_toInt loc.sourceType
  · exact locationStatus_ofInt_toInt loc.status
  · simp only
    exact (foldl_setExtra_sorted loc.extras [] (by simp) hsorted).trans (by simp)

/-- C4 witness: the amended round trip evaluated at a concrete fix with
two benign extras under the concrete codec. -/
theorem C4_witness :
    ∃ g, deserializeLocation sampleCodec
        (serializeLocation sampleCodec benignExtraFix) = some g ∧
      g.timestamp = benignExtraFix.timestamp ∧ g.latitude = benignExtraFix.latitude ∧
      g.longitude = benignExtraFix.longitude ∧ g.altitude = benignExtraFix.altitude ∧
      g.accuracy = benignExtraFix.accuracy ∧ g.sourceType = benignExtraFix.sourceType ∧
      g.status = benignExtraFix.status ∧ g.extras = benignExtraFix.extras :=
  C4_roundtrip sampleCodec benignExtraFix
    (by decide) (by decide) (by decide) (by decide) (by decide) (by decide)
    (by decide) (by decide) (by decide) (by decide) (by decide) (by decide)
    (by decide) (by decide) (by decide) (by simp [benignExtraFix])
